import Mathlib

/-!
Verification of the IGV session generator.

The repository consists of two document builders:
* `create_igv_session` (src/create_igv_session.py) builds a single-individual
  IGV session XML document;
* `create_multi_sample_igv_session` (src/multiple-individuals.py) builds a
  multi-sample IGV session XML document.

Both construct an element tree (ElementTree `Element` / `SubElement` calls),
serialize it (`ET.tostring`, `minidom.parseString`, `toprettyxml`), and strip
blank lines.

Strings are modelled as `List Char` (`Str`); a Python f-string becomes a
`++`-chain of its chunks.  The element tree is modelled by `XElem`: a tag, an
ordered attribute list (Python 3.7+ dict literals preserve insertion order,
and expat / minidom preserve document order of attributes), and an ordered
child list.

The serialization pipeline `ET.tostring ∘ minidom.parseString ∘ toprettyxml`
is modelled by `toprettyxml` directly on the tree: `ET.tostring` escapes every
attribute value with `escapeET` (which protects `&<>"` and tab / newline /
carriage-return as character references), and a conforming reader of that
output recovers each attribute value exactly (theorem
`parseAttrValue_escapeET` below), so minidom's DOM holds the original values
and re-emits them with minidom's own `_write_data` escaping (`escapeMinidom`,
which does NOT protect whitespace characters).  `parseAttrValue` models how a
conforming XML 1.0 reader interprets attribute-value text: character and the
five predefined entity references are resolved (character references escape
normalization), literal whitespace is normalized to spaces, a bare `<` or `"`
is rejected.  (Hexadecimal character references and the character-validity
check are elided: neither escaper ever emits them / invalid characters are
passed through verbatim by the embedded code paths.)
-/

abbrev Str := List Char

/-- An XML element as built by the two scripts: tag name, ordered attribute
list, ordered children. -/
inductive XElem : Type where
  | mk (tag : Str) (attrs : List (Str × Str)) (children : List XElem) : XElem

def XElem.tag : XElem → Str
  | .mk t _ _ => t

def XElem.attrs : XElem → List (Str × Str)
  | .mk _ a _ => a

def XElem.children : XElem → List XElem
  | .mk _ _ c => c

/-- Look up an attribute value by name (Python dict access; keys are unique
in every dict the scripts build). -/
def XElem.getAttr (e : XElem) (n : Str) : Option Str :=
  e.attrs.lookup n

mutual

/-- All elements of the document tree, in document order. -/
def allElems : XElem → List XElem
  | .mk t a cs => .mk t a cs :: allElemsList cs

def allElemsList : List XElem → List XElem
  | [] => []
  | c :: cs => allElems c ++ allElemsList cs

end

/-- The `Resource` elements of a document. -/
def resourceElems (d : XElem) : List XElem :=
  (allElems d).filter (fun e => e.tag == ("Resource").data)

/-- The `id` attributes of the `Track` elements of a document, in document
order (every Track built by the scripts carries an `id`). -/
def trackIds (d : XElem) : List Str :=
  ((allElems d).filter (fun e => e.tag == ("Track").data)).filterMap
    (fun e => e.getAttr (("id").data))

/-- The Track children of the Panel named `pname`. -/
def panelTracks (d : XElem) (pname : Str) : List XElem :=
  ((d.children.filter
      (fun e => e.tag == ("Panel").data && e.attrs.contains ((("name").data, pname)))).flatMap
    (fun e => e.children)).filter (fun e => e.tag == ("Track").data)

/-! ## Single-individual builder (src/create_igv_session.py) -/

def matBwPath (B I M G : Str) : Str :=
  B ++ ("/founder-phased/").data ++ I ++ (".dna-methylation.founder-phased.mat.").data ++
    M ++ (".").data ++ G ++ (".bw").data

def patBwPath (B I M G : Str) : Str :=
  B ++ ("/founder-phased/").data ++ I ++ (".dna-methylation.founder-phased.pat.").data ++
    M ++ (".").data ++ G ++ (".bw").data

def matBwName (I M G : Str) : Str :=
  I ++ (".dna-methylation.founder-phased.mat.").data ++ M ++ (".").data ++ G ++ (".bw").data

def patBwName (I M G : Str) : Str :=
  I ++ (".dna-methylation.founder-phased.pat.").data ++ M ++ (".").data ++ G ++ (".bw").data

def patBedPath (B I : Str) : Str :=
  B ++ ("/founder-phased/").data ++ I ++ (".hap-map-blocks.paternal.sorted.bed.gz").data

def matBedPath (B I : Str) : Str :=
  B ++ ("/founder-phased/").data ++ I ++ (".hap-map-blocks.maternal.sorted.bed.gz").data

def patBedIndex (B I : Str) : Str :=
  B ++ ("/founder-phased/").data ++ I ++ (".hap-map-blocks.paternal.sorted.bed.gz.tbi").data

def matBedIndex (B I : Str) : Str :=
  B ++ ("/founder-phased/").data ++ I ++ (".hap-map-blocks.maternal.sorted.bed.gz.tbi").data

def bamPath (B I : Str) : Str :=
  B ++ ("/read-backed-phased/").data ++ I ++ (".GRCh38.haplotagged.bam").data

def bamIndex (B I : Str) : Str :=
  B ++ ("/read-backed-phased/").data ++ I ++ (".GRCh38.haplotagged.bam.bai").data

def covId (B I : Str) : Str :=
  B ++ ("/read-backed-phased/").data ++ I ++ (".GRCh38.haplotagged.bam_coverage").data

def singleMatBwResource (B I M G : Str) : XElem :=
  .mk ("Resource").data
    [(("path").data, matBwPath B I M G), (("type").data, ("bw").data)] []

def singlePatBwResource (B I M G : Str) : XElem :=
  .mk ("Resource").data
    [(("path").data, patBwPath B I M G), (("type").data, ("bw").data)] []

def singlePatBedResource (B I : Str) : XElem :=
  .mk ("Resource").data
    [(("index").data, patBedIndex B I), (("path").data, patBedPath B I),
     (("type").data, ("bed").data)] []

def singleMatBedResource (B I : Str) : XElem :=
  .mk ("Resource").data
    [(("index").data, matBedIndex B I), (("path").data, matBedPath B I),
     (("type").data, ("bed").data)] []

def singleBamResource (B I : Str) : XElem :=
  .mk ("Resource").data
    [(("index").data, bamIndex B I), (("path").data, bamPath B I),
     (("type").data, ("bam").data)] []

def singleDataRange : XElem :=
  .mk ("DataRange").data
    [(("baseline").data, ("0.0").data), (("drawBaseline").data, ("true").data),
     (("flipAxis").data, ("false").data), (("maximum").data, ("1.0").data),
     (("minimum").data, ("0.0").data), (("type").data, ("LINEAR").data)] []

def singlePatTrack (B I M G : Str) : XElem :=
  .mk ("Track").data
    [(("attributeKey").data, patBwName I M G),
     (("autoScale").data, ("false").data),
     (("clazz").data, ("org.broad.igv.track.DataSourceTrack").data),
     (("fontSize").data, ("10").data),
     (("id").data, patBwPath B I M G),
     (("name").data, patBwName I M G),
     (("renderer").data, ("BAR_CHART").data),
     (("visible").data, ("true").data),
     (("windowFunction").data, ("mean").data)]
    [singleDataRange]

def singleMatTrack (B I M G : Str) : XElem :=
  .mk ("Track").data
    [(("attributeKey").data, matBwName I M G),
     (("autoScale").data, ("false").data),
     (("clazz").data, ("org.broad.igv.track.DataSourceTrack").data),
     (("fontSize").data, ("10").data),
     (("id").data, matBwPath B I M G),
     (("name").data, matBwName I M G),
     (("renderer").data, ("BAR_CHART").data),
     (("visible").data, ("true").data),
     (("windowFunction").data, ("mean").data)]
    [singleDataRange]

def singleDataPanel (B I M G : Str) : XElem :=
  .mk ("Panel").data
    [(("name").data, ("DataPanel").data), (("height").data, ("200").data)]
    [singlePatTrack B I M G, singleMatTrack B I M G]

def covDataRange : XElem :=
  .mk ("DataRange").data
    [(("baseline").data, ("0.0").data), (("drawBaseline").data, ("true").data),
     (("flipAxis").data, ("false").data), (("minimum").data, ("0.0").data),
     (("type").data, ("LINEAR").data)] []

def coverageTrack (B I : Str) : XElem :=
  .mk ("Track").data
    [(("attributeKey").data, I ++ (".GRCh38.haplotagged.bam Coverage").data),
     (("autoScale").data, ("true").data),
     (("clazz").data, ("org.broad.igv.sam.CoverageTrack").data),
     (("fontSize").data, ("10").data),
     (("id").data, covId B I),
     (("name").data, I ++ (".GRCh38.haplotagged.bam Coverage").data),
     (("snpThreshold").data, ("0.2").data),
     (("visible").data, ("true").data)]
    [covDataRange]

def renderOptionsElem : XElem :=
  .mk ("RenderOptions").data
    [(("basemodFilter").data, ("m,").data),
     (("colorOption").data, ("BASE_MODIFICATION_2COLOR").data),
     (("duplicatesOption").data, ("FILTER").data),
     (("groupByOption").data, ("PHASE").data),
     (("hideSmallIndels").data, ("true").data),
     (("shadeBasesOption").data, ("false").data),
     (("showMismatches").data, ("true").data),
     (("smallIndelThreshold").data, ("50").data)] []

def alignmentTrack (B I : Str) : XElem :=
  .mk ("Track").data
    [(("attributeKey").data, I ++ (".GRCh38.haplotagged.bam").data),
     (("clazz").data, ("org.broad.igv.sam.AlignmentTrack").data),
     (("color").data, ("185,185,185").data),
     (("displayMode").data, ("FULL").data),
     (("experimentType").data, ("THIRD_GEN").data),
     (("fontSize").data, ("10").data),
     (("id").data, bamPath B I),
     (("name").data, I ++ (".GRCh38.haplotagged.bam").data),
     (("visible").data, ("true").data)]
    [renderOptionsElem]

def singleBamPanel (B I : Str) : XElem :=
  .mk ("Panel").data
    [(("name").data, ("Panel").data ++ I ++ ("_bam").data),
     (("height").data, ("400").data)]
    [coverageTrack B I, alignmentTrack B I]

def refSequenceTrackSingle : XElem :=
  .mk ("Track").data
    [(("attributeKey").data, ("Reference sequence").data),
     (("clazz").data, ("org.broad.igv.track.SequenceTrack").data),
     (("fontSize").data, ("10").data),
     (("id").data, ("Reference sequence").data),
     (("name").data, ("Reference sequence").data),
     (("sequenceTranslationStrandValue").data, ("+").data),
     (("shouldShowTranslation").data, ("false").data),
     (("visible").data, ("true").data)] []

def refseqSelectUrl : Str :=
  ("https://hgdownload.soe.ucsc.edu/goldenPath/hg38/database/ncbiRefSeqSelect.txt.gz").data

def refseqSelectTrack : XElem :=
  .mk ("Track").data
    [(("attributeKey").data, ("Refseq Select").data),
     (("clazz").data, ("org.broad.igv.track.FeatureTrack").data),
     (("colorScale").data, ("ContinuousColorScale;0.0;127.0;255,255,255;0,0,178").data),
     (("fontSize").data, ("10").data),
     (("groupByStrand").data, ("false").data),
     (("id").data, refseqSelectUrl),
     (("name").data, ("Refseq Select").data),
     (("visible").data, ("true").data)] []

def patHapTrack (B I : Str) : XElem :=
  .mk ("Track").data
    [(("attributeKey").data, I ++ (".hap-map-blocks.paternal.sorted.bed.gz").data),
     (("clazz").data, ("org.broad.igv.track.FeatureTrack").data),
     (("featureVisibilityWindow").data, ("2147483647").data),
     (("fontSize").data, ("10").data),
     (("groupByStrand").data, ("false").data),
     (("id").data, patBedPath B I),
     (("name").data, I ++ (".hap-map-blocks.paternal.sorted.bed.gz").data),
     (("visible").data, ("true").data)] []

def matHapTrack (B I : Str) : XElem :=
  .mk ("Track").data
    [(("attributeKey").data, I ++ (".hap-map-blocks.maternal.sorted.bed.gz").data),
     (("clazz").data, ("org.broad.igv.track.FeatureTrack").data),
     (("featureVisibilityWindow").data, ("2147483647").data),
     (("fontSize").data, ("10").data),
     (("groupByStrand").data, ("false").data),
     (("id").data, matBedPath B I),
     (("name").data, I ++ (".hap-map-blocks.maternal.sorted.bed.gz").data),
     (("visible").data, ("true").data)] []

def singleFeaturePanel (B I : Str) : XElem :=
  .mk ("Panel").data
    [(("name").data, ("FeaturePanel").data), (("height").data, ("150").data)]
    [refSequenceTrackSingle, refseqSelectTrack, patHapTrack B I, matHapTrack B I]

/-- The element tree built by `create_igv_session`, before serialization.
Children appear in the order of the `SubElement` calls. -/
def create_igv_session_tree (individual_id locus genome base_url : Str)
    (include_bam_tracks : Bool) (methylation_type : Str) : XElem :=
  .mk ("Session").data
    [(("genome").data, genome), (("locus").data, locus), (("version").data, ("8").data)]
    ([.mk ("Resources").data []
        ([singleMatBwResource base_url individual_id methylation_type genome,
          singlePatBwResource base_url individual_id methylation_type genome,
          singlePatBedResource base_url individual_id,
          singleMatBedResource base_url individual_id] ++
          (if include_bam_tracks then [singleBamResource base_url individual_id] else [])),
      singleDataPanel base_url individual_id methylation_type genome] ++
      (if include_bam_tracks then [singleBamPanel base_url individual_id] else []) ++
      [singleFeaturePanel base_url individual_id,
       .mk ("PanelLayout").data
         [(("dividerFractions").data,
           if include_bam_tracks then (("0.15,0.75").data) else (("0.30").data))] []])

/-! ## Multi-sample builder (src/multiple-individuals.py) -/

def multiBwPath (B sid M G parent : Str) : Str :=
  B ++ ("/founder-phased/").data ++ sid ++ (".dna-methylation.founder-phased.").data ++
    parent ++ (".").data ++ M ++ (".").data ++ G ++ (".bw").data

def multiBwResource (B sid M G parent : Str) : XElem :=
  .mk ("Resource").data
    [(("path").data, multiBwPath B sid M G parent), (("type").data, ("bw").data)] []

/-- Python `str.upper`, restricted to the ASCII strings it is applied to. -/
def pyUpper (l : Str) : Str := l.map Char.toUpper

def multiDataRange : XElem :=
  .mk ("DataRange").data
    [(("baseline").data, ("0.0").data), (("drawBaseline").data, ("true").data),
     (("maximum").data, ("1.0").data), (("minimum").data, ("0.0").data),
     (("type").data, ("LINEAR").data)] []

def multiMethTrack (B sid M G parent : Str) : XElem :=
  .mk ("Track").data
    [(("attributeKey").data, sid ++ ("_").data ++ parent ++ ("_meth").data),
     (("autoScale").data, ("false").data),
     (("clazz").data, ("org.broad.igv.track.DataSourceTrack").data),
     (("fontSize").data, ("10").data),
     (("id").data, multiBwPath B sid M G parent),
     (("name").data, sid ++ (" ").data ++ pyUpper parent ++ (" Methylation").data),
     (("renderer").data, ("BAR_CHART").data),
     (("visible").data, ("true").data),
     (("windowFunction").data, ("mean").data)]
    [multiDataRange]

def multiBedPath (B sid parent : Str) : Str :=
  B ++ ("/founder-phased/").data ++ sid ++ (".hap-map-blocks.").data ++
    parent ++ (".sorted.bed.gz").data

def multiBedResource (B sid parent : Str) : XElem :=
  .mk ("Resource").data
    [(("index").data, multiBedPath B sid parent ++ (".tbi").data),
     (("path").data, multiBedPath B sid parent),
     (("type").data, ("bed").data)] []

def multiBlockTrack (B sid parent : Str) : XElem :=
  .mk ("Track").data
    [(("attributeKey").data, sid ++ ("_").data ++ parent ++ ("_blocks").data),
     (("clazz").data, ("org.broad.igv.track.FeatureTrack").data),
     (("featureVisibilityWindow").data, ("2147483647").data),
     (("fontSize").data, ("10").data),
     (("id").data, multiBedPath B sid parent),
     (("name").data, sid ++ (" ").data ++ (pyUpper parent).take 3 ++ (" Blocks").data),
     (("visible").data, ("true").data)] []

def vcfPath (B : Str) : Str :=
  B ++ ("/vcfs/CEPH-1463.joint.GRCh38.deepvariant.glnexus.phased.vcf.gz").data

def vcfIhtPath (B : Str) : Str :=
  B ++ ("/vcfs-iht-phased/CEPH1463.GRCh38.pass.sorted.vcf.gz").data

def vcfResource (B : Str) : XElem :=
  .mk ("Resource").data
    [(("index").data, vcfPath B ++ (".tbi").data), (("path").data, vcfPath B),
     (("type").data, ("vcf").data)] []

def vcfIhtResource (B : Str) : XElem :=
  .mk ("Resource").data
    [(("index").data, vcfIhtPath B ++ (".tbi").data), (("path").data, vcfIhtPath B),
     (("type").data, ("vcf").data)] []

def vcfTrack (B : Str) : XElem :=
  .mk ("Track").data
    [(("attributeKey").data, ("joint_vcf").data),
     (("clazz").data, ("org.broad.igv.variant.VariantTrack").data),
     (("displayMode").data, ("COLLAPSED").data),
     (("fontSize").data, ("10").data),
     (("id").data, vcfPath B),
     (("name").data, ("All variants").data),
     (("visible").data, ("true").data)] []

def vcfIhtTrack (B : Str) : XElem :=
  .mk ("Track").data
    [(("attributeKey").data, ("joint_vcf_iht_phased").data),
     (("clazz").data, ("org.broad.igv.variant.VariantTrack").data),
     (("fontSize").data, ("10").data),
     (("id").data, vcfIhtPath B),
     (("name").data, ("Phased variants (PAT|MAT)").data),
     (("visible").data, ("true").data)] []

def refSequenceTrackMulti : XElem :=
  .mk ("Track").data
    [(("clazz").data, ("org.broad.igv.track.SequenceTrack").data),
     (("fontSize").data, ("10").data),
     (("id").data, ("Reference sequence").data),
     (("name").data, ("Reference sequence").data),
     (("visible").data, ("true").data)] []

/-- The three element lists the multi-sample builder appends to while looping
over the samples: children of `Resources`, of the DataPanel, and of the
FeaturePanel. -/
structure MultiState where
  res : List XElem
  dataTracks : List XElem
  featTracks : List XElem

/-- One iteration of the `for sample_id in sample_ids` loop. -/
def multiSampleStep (B M G : Str) (st : MultiState) (sid : Str) : MultiState :=
  let st1 := [("pat").data, ("mat").data].foldl
    (fun a parent =>
      { a with
        res := a.res ++ [multiBwResource B sid M G parent],
        dataTracks := a.dataTracks ++ [multiMethTrack B sid M G parent] }) st
  [("paternal").data, ("maternal").data].foldl
    (fun a parent =>
      { a with
        res := a.res ++ [multiBedResource B sid parent],
        featTracks := a.featTracks ++ [multiBlockTrack B sid parent] }) st1

/-- The element tree built by `create_multi_sample_igv_session`, before
serialization. -/
def create_multi_sample_igv_session_tree (sample_ids : List Str)
    (locus genome base_url methylation_type : Str) : XElem :=
  let st0 : MultiState :=
    ⟨[vcfResource base_url, vcfIhtResource base_url], [],
     [vcfTrack base_url, vcfIhtTrack base_url]⟩
  let st := sample_ids.foldl (multiSampleStep base_url methylation_type genome) st0
  .mk ("Session").data
    [(("genome").data, genome), (("locus").data, locus), (("version").data, ("8").data)]
    [.mk ("Resources").data [] st.res,
     .mk ("Panel").data
       [(("name").data, ("DataPanel").data), (("height").data, ("400").data)]
       st.dataTracks,
     .mk ("Panel").data
       [(("name").data, ("FeaturePanel").data), (("height").data, ("200").data)]
       (st.featTracks ++ [refSequenceTrackMulti]),
     .mk ("PanelLayout").data [(("dividerFractions").data, ("0.60").data)] []]

/-! ## Serialization: minidom `toprettyxml` followed by blank-line stripping -/

/-- The whitespace characters of Python `str.strip` / `str.isspace` relevant
to this codebase (ASCII). -/
def isPySpace (c : Char) : Bool :=
  c = ' ' || c = '\t' || c = '\n' || c = '\r' || c = '\x0b' || c = '\x0c'

/-- minidom `_write_data`: escapes `&`, `<`, `"`, `>` and nothing else. -/
def escapeMinidomChar (c : Char) : Str :=
  if c = '&' then ("&amp;").data
  else if c = '<' then ("&lt;").data
  else if c = '"' then ("&quot;").data
  else if c = '>' then ("&gt;").data
  else [c]

/-- minidom attribute-value output.  The sequential single-character
`str.replace` calls of `_write_data` (ampersand first) equal this
character-wise expansion, since no replacement output contains a character
that a later replacement rewrites. -/
def escapeMinidom (v : Str) : Str := v.flatMap escapeMinidomChar

def writeAttrs : List (Str × Str) → Str
  | [] => []
  | (n, v) :: rest =>
    (" ").data ++ n ++ ("=\"").data ++ escapeMinidom v ++ ("\"").data ++ writeAttrs rest

mutual

/-- minidom `Element.writexml` with `addindent="    "`, `newl="\n"`, for trees
without text children (the parse of `ET.tostring` output contains none). -/
def writeElem (ind : Str) : XElem → Str
  | .mk t a [] => ind ++ ("<").data ++ t ++ writeAttrs a ++ ("/>\n").data
  | .mk t a (c :: cs) =>
    ind ++ ("<").data ++ t ++ writeAttrs a ++ (">\n").data ++
      writeElems (ind ++ ("    ").data) (c :: cs) ++
      ind ++ ("</").data ++ t ++ (">\n").data

def writeElems (ind : Str) : List XElem → Str
  | [] => []
  | e :: es => writeElem ind e ++ writeElems ind es

end

/-- The declaration line minidom's `Document.writexml` emits first. -/
def xmlDeclLine : Str := ("<?xml version=\"1.0\" ?>").data

/-- minidom `toprettyxml(indent="    ")` of a document whose only child is
`root`. -/
def toprettyxml (root : XElem) : Str := xmlDeclLine ++ '\n' :: writeElem [] root

/-- Python `str.split("\n")`. -/
def splitNl : Str → List Str
  | [] => [[]]
  | c :: r =>
    if c = '\n' then [] :: splitNl r
    else
      match splitNl r with
      | [] => [[c]]
      | h :: t => (c :: h) :: t

/-- Python `"\n".join`. -/
def joinNl : List Str → Str
  | [] => []
  | [x] => x
  | x :: y :: t => x ++ '\n' :: joinNl (y :: t)

/-- `if line.strip()`: keep a line iff it has a non-whitespace character. -/
def keepLine (l : Str) : Bool := !(l.all isPySpace)

/-- The shared final step of both scripts: pretty-print, drop blank lines,
re-join with newlines. -/
def serializeSession (root : XElem) : Str :=
  joinNl ((splitNl (toprettyxml root)).filter keepLine)

/-- The string returned by `create_igv_session`. -/
def create_igv_session (individual_id locus genome base_url : Str)
    (include_bam_tracks : Bool) (methylation_type : Str) : Str :=
  serializeSession
    (create_igv_session_tree individual_id locus genome base_url include_bam_tracks
      methylation_type)

/-- `create_igv_session` with its Python default arguments
(`genome="hg38"`, `base_url="http://localhost:8080"`,
`include_bam_tracks=True`, `methylation_type="count"`). -/
def create_igv_session_defaults (individual_id locus : Str) : Str :=
  create_igv_session individual_id locus (("hg38").data) (("http://localhost:8080").data)
    true (("count").data)

def create_igv_session_tree_defaults (individual_id locus : Str) : XElem :=
  create_igv_session_tree individual_id locus (("hg38").data)
    (("http://localhost:8080").data) true (("count").data)

/-- The string returned by `create_multi_sample_igv_session`. -/
def create_multi_sample_igv_session (sample_ids : List Str)
    (locus genome base_url methylation_type : Str) : Str :=
  serializeSession
    (create_multi_sample_igv_session_tree sample_ids locus genome base_url
      methylation_type)

/-! ## The attribute-value life cycle (for the round-trip claim) -/

/-- ElementTree `_escape_attrib`: escapes `&<>"` and protects carriage
return, newline and tab as decimal character references.  The sequential
`str.replace` calls (ampersand first) equal this character-wise expansion. -/
def escapeETChar (c : Char) : Str :=
  if c = '&' then ("&amp;").data
  else if c = '<' then ("&lt;").data
  else if c = '>' then ("&gt;").data
  else if c = '"' then ("&quot;").data
  else if c = '\r' then ("&#13;").data
  else if c = '\n' then ("&#10;").data
  else if c = '\t' then ("&#09;").data
  else [c]

def escapeET (v : Str) : Str := v.flatMap escapeETChar

/-- Numeric value of a string of decimal digits. -/
def decDigitsVal (l : Str) : Nat := l.foldl (fun a c => 10 * a + (c.toNat - 48)) 0

/-- How a conforming XML 1.0 processor reads attribute-value text: resolves
the five predefined entity references and decimal character references
(which escape normalization), normalizes literal whitespace (tab, newline,
carriage return — with CR LF read as one line break) to a space, and rejects
a bare `<` (and a bare `"`, which would end the attribute early).
Hexadecimal character references are elided (no escaper here emits them), as
is the character-range validity check. -/
def parseAttrValue : Str → Option Str
  | [] => some []
  | c :: rest =>
    if c = '<' then none
    else if c = '"' then none
    else if c = '&' then
      if rest.take 4 = ("amp;").data then
        Option.map (fun t => '&' :: t) (parseAttrValue (rest.drop 4))
      else if rest.take 3 = ("lt;").data then
        Option.map (fun t => '<' :: t) (parseAttrValue (rest.drop 3))
      else if rest.take 3 = ("gt;").data then
        Option.map (fun t => '>' :: t) (parseAttrValue (rest.drop 3))
      else if rest.take 5 = ("quot;").data then
        Option.map (fun t => '"' :: t) (parseAttrValue (rest.drop 5))
      else if rest.take 5 = ("apos;").data then
        Option.map (fun t => '\'' :: t) (parseAttrValue (rest.drop 5))
      else
        match rest with
        | '#' :: ds =>
          if (ds.dropWhile Char.isDigit).take 1 = [';'] ∧
              ds.takeWhile Char.isDigit ≠ [] ∧
              Nat.isValidChar (decDigitsVal (ds.takeWhile Char.isDigit)) then
            Option.map (fun t => Char.ofNat (decDigitsVal (ds.takeWhile Char.isDigit)) :: t)
              (parseAttrValue ((ds.dropWhile Char.isDigit).drop 1))
          else none
        | _ => none
    else if c = '\r' then
      Option.map (fun t => ' ' :: t)
        (parseAttrValue (if rest.take 1 = ['\n'] then rest.drop 1 else rest))
    else if c = '\n' then Option.map (fun t => ' ' :: t) (parseAttrValue rest)
    else if c = '\t' then Option.map (fun t => ' ' :: t) (parseAttrValue rest)
    else Option.map (fun t => c :: t) (parseAttrValue rest)
termination_by l => l.length
decreasing_by
  all_goals simp_wf
  all_goals try omega
  all_goals try (split <;> simp <;> omega)
  all_goals
    (have hs := (List.dropWhile_sublist (l := ds) (p := Char.isDigit)).length_le
     omega)

/-- The journey of one attribute value through the pipeline: `ET.tostring`
escaping, the parse inside `minidom.parseString`, minidom's re-escaping in
`toprettyxml`, and the final read of the generated file by a conforming XML
processor. -/
def xmlAttrRoundTrip (v : Str) : Option Str :=
  (parseAttrValue (escapeET v)).bind (fun w => parseAttrValue (escapeMinidom w))

/-- The last `n` characters of a string, reversed (a convenient suffix
discriminator). -/
def lastN (n : Nat) (l : Str) : Str := l.reverse.take n

/-- The four Resources one loop iteration appends, in append order. -/
def sampleResources (B M G sid : Str) : List XElem :=
  [multiBwResource B sid M G (("pat").data), multiBwResource B sid M G (("mat").data),
   multiBedResource B sid (("paternal").data), multiBedResource B sid (("maternal").data)]

/-- The two DataPanel Tracks one loop iteration appends. -/
def sampleDataTracks (B M G sid : Str) : List XElem :=
  [multiMethTrack B sid M G (("pat").data), multiMethTrack B sid M G (("mat").data)]

/-- The two FeaturePanel Tracks one loop iteration appends. -/
def sampleFeatTracks (B sid : Str) : List XElem :=
  [multiBlockTrack B sid (("paternal").data), multiBlockTrack B sid (("maternal").data)]

/-- The index-attribute invariant for one Resource element: indexed formats
(`bed`, `vcf` with `.tbi`; `bam` with `.bai`) carry a non-empty `index` equal
to their `path` plus the suffix; `bw` carries no `index` attribute. -/
def resourceOk (e : XElem) : Bool :=
  match e.getAttr (("type").data) with
  | none => false
  | some t =>
    if t == ("bed").data || t == ("vcf").data then
      match e.getAttr (("path").data), e.getAttr (("index").data) with
      | some p, some i => i == p ++ (".tbi").data && !i.isEmpty
      | _, _ => false
    else if t == ("bam").data then
      match e.getAttr (("path").data), e.getAttr (("index").data) with
      | some p, some i => i == p ++ (".bai").data && !i.isEmpty
      | _, _ => false
    else if t == ("bw").data then
      match e.getAttr (("index").data) with
      | none => true
      | some _ => false
    else true

/-! ## Generic list toolkit -/

theorem append_ne_of_prefix_ne {a b x y : Str} (hl : a.length = b.length) (hab : a ≠ b) :
    a ++ x ≠ b ++ y :=
  fun h => hab (List.append_inj h hl).1

theorem append_ne_of_suffix_ne {a b : Str} (hl : a.length = b.length) (hab : a ≠ b)
    (x y : Str) : x ++ a ≠ y ++ b := by
  intro h
  have hlen : x.length = y.length := by
    have h2 := congrArg List.length h
    simp only [List.length_append] at h2
    omega
  exact hab (List.append_inj h hlen).2

theorem append_right_cancel_ne {x y : Str} (h : x ≠ y) (s : Str) : x ++ s ≠ y ++ s :=
  fun he => h (List.append_cancel_right he)

theorem ne_of_lastN_ne {n : Nat} {a b : Str} (h : lastN n a ≠ lastN n b) : a ≠ b :=
  fun he => h (he ▸ rfl)

theorem lastN_append {n : Nat} {r : Str} (x : Str) (h : n ≤ r.length) :
    lastN n (x ++ r) = lastN n r := by
  simp only [lastN, List.reverse_append]
  exact List.take_append_of_le_length (by simpa using h)

/-! ## C1, C4, C5, C9 -/

/-- C1: for every `individual_id` and `locus` (and every genome, base URL,
BAM flag and methylation type), the single-individual document's root element
is `Session`, its `genome` attribute is the genome argument (default
`"hg38"`), its `locus` attribute is the locus argument verbatim, and its
`version` attribute is the constant `"8"`. -/
theorem c1_session_root_attrs (individual_id locus genome base_url : Str)
    (include_bam_tracks : Bool) (methylation_type : Str) :
    (create_igv_session_tree individual_id locus genome base_url include_bam_tracks
        methylation_type).tag = ("Session").data ∧
    (create_igv_session_tree individual_id locus genome base_url include_bam_tracks
        methylation_type).getAttr (("genome").data) = some genome ∧
    (create_igv_session_tree individual_id locus genome base_url include_bam_tracks
        methylation_type).getAttr (("locus").data) = some locus ∧
    (create_igv_session_tree individual_id locus genome base_url include_bam_tracks
        methylation_type).getAttr (("version").data) = some (("8").data) ∧
    (create_igv_session_tree_defaults individual_id locus).getAttr (("genome").data) =
      some (("hg38").data) :=
  ⟨rfl, rfl, rfl, rfl, rfl⟩

/-- C9: both builders are deterministic — two calls with identical arguments
return identical output strings (the embedding needed no state beyond the
arguments: no global mutable state, randomness or ambient input is read, and
attribute emission order is the fixed dict insertion order). -/
theorem c9_deterministic :
    (∀ individual_id locus genome base_url include_bam_tracks methylation_type,
      create_igv_session individual_id locus genome base_url include_bam_tracks
          methylation_type =
        create_igv_session individual_id locus genome base_url include_bam_tracks
          methylation_type) ∧
    (∀ sample_ids locus genome base_url methylation_type,
      create_multi_sample_igv_session sample_ids locus genome base_url methylation_type =
        create_multi_sample_igv_session sample_ids locus genome base_url
          methylation_type) :=
  ⟨fun _ _ _ _ _ _ => rfl, fun _ _ _ _ _ => rfl⟩

/-- C4: for fixed `individual_id`, `locus`, genome, base URL and methylation
type, the `include_bam_tracks=false` document differs from the
`include_bam_tracks=true` document in exactly three ways: the BAM Resource is
absent, the BAM Panel is absent, and the PanelLayout divider fractions are
`"0.30"` instead of `"0.15,0.75"`; root attributes, the remaining Resources,
the DataPanel and the FeaturePanel are shared verbatim. -/
theorem c4_bam_toggle_frame (individual_id locus genome base_url methylation_type : Str) :
    ∃ (commonAttrs : List (Str × Str)) (resPrefix : List XElem) (dp fp bamRes bamP : XElem),
      create_igv_session_tree individual_id locus genome base_url true methylation_type =
        .mk ("Session").data commonAttrs
          [.mk ("Resources").data [] (resPrefix ++ [bamRes]), dp, bamP, fp,
           .mk ("PanelLayout").data
             [(("dividerFractions").data, ("0.15,0.75").data)] []] ∧
      create_igv_session_tree individual_id locus genome base_url false methylation_type =
        .mk ("Session").data commonAttrs
          [.mk ("Resources").data [] resPrefix, dp, fp,
           .mk ("PanelLayout").data [(("dividerFractions").data, ("0.30").data)] []] :=
  ⟨[(("genome").data, genome), (("locus").data, locus), (("version").data, ("8").data)],
   [singleMatBwResource base_url individual_id methylation_type genome,
    singlePatBwResource base_url individual_id methylation_type genome,
    singlePatBedResource base_url individual_id,
    singleMatBedResource base_url individual_id],
   singleDataPanel base_url individual_id methylation_type genome,
   singleFeaturePanel base_url individual_id,
   singleBamResource base_url individual_id,
   singleBamPanel base_url individual_id,
   rfl, rfl⟩

/-- C5 (amended): the single-individual builder creates its two
methylation-signal Resources in the order maternal first, then paternal, each
at path `{base_url}/founder-phased/{individual_id}.dna-methylation.founder-phased.{mat|pat}.{methylation_type}.{genome}.bw`
with type `bw`. -/
theorem c5_methylation_resource_order (individual_id locus genome base_url : Str)
    (include_bam_tracks : Bool) (methylation_type : Str) :
    (resourceElems (create_igv_session_tree individual_id locus genome base_url
        include_bam_tracks methylation_type)).take 2 =
      [.mk ("Resource").data
         [(("path").data, matBwPath base_url individual_id methylation_type genome),
          (("type").data, ("bw").data)] [],
       .mk ("Resource").data
         [(("path").data, patBwPath base_url individual_id methylation_type genome),
          (("type").data, ("bw").data)] []] := by
  cases include_bam_tracks <;>
    simp [resourceElems, create_igv_session_tree, allElems, allElemsList,
      singleMatBwResource, singlePatBwResource, singlePatBedResource,
      singleMatBedResource, singleBamResource, singleDataPanel, singlePatTrack,
      singleMatTrack, singleDataRange, singleBamPanel, coverageTrack, covDataRange,
      alignmentTrack, renderOptionsElem, singleFeaturePanel, refSequenceTrackSingle,
      refseqSelectTrack, patHapTrack, matHapTrack, XElem.tag]

/-- C5 counterexample: the claim says the paternal methylation Resource comes
first, but on concrete input the first Resource of the document carries the
maternal path, which differs from the paternal path. -/
theorem c5_counterexample :
    ((resourceElems (create_igv_session_tree (("i").data) (("l").data) (("g").data)
          (("u").data) true (("c").data))).head?.bind
        (fun e => e.getAttr (("path").data))) =
      some (matBwPath (("u").data) (("i").data) (("c").data) (("g").data)) ∧
    matBwPath (("u").data) (("i").data) (("c").data) (("g").data) ≠
      patBwPath (("u").data) (("i").data) (("c").data) (("g").data) := by
  constructor
  · have h := c5_methylation_resource_order (("i").data) (("l").data) (("g").data)
      (("u").data) true (("c").data)
    have h2 : (resourceElems (create_igv_session_tree (("i").data) (("l").data)
        (("g").data) (("u").data) true (("c").data))).head? =
        some (.mk ("Resource").data
          [(("path").data, matBwPath (("u").data) (("i").data) (("c").data) (("g").data)),
           (("type").data, ("bw").data)] []) := by
      cases hr : resourceElems (create_igv_session_tree (("i").data) (("l").data)
          (("g").data) (("u").data) true (("c").data)) with
      | nil => rw [hr] at h; simp at h
      | cons x xs =>
        rw [hr] at h
        cases xs with
        | nil => simp at h
        | cons y ys => simp at h; simp [h.1]
    rw [h2]
    rfl
  · decide

/-! ## Closed form of the multi-sample builder loop -/

theorem multiSampleStep_eq (B M G : Str) (st : MultiState) (sid : Str) :
    multiSampleStep B M G st sid =
      ⟨st.res ++ sampleResources B M G sid,
       st.dataTracks ++ sampleDataTracks B M G sid,
       st.featTracks ++ sampleFeatTracks B sid⟩ := by
  simp [multiSampleStep, sampleResources, sampleDataTracks, sampleFeatTracks]

theorem foldl_multiSampleStep (B M G : Str) (samples : List Str) :
    ∀ st : MultiState,
      samples.foldl (multiSampleStep B M G) st =
        ⟨st.res ++ samples.flatMap (sampleResources B M G),
         st.dataTracks ++ samples.flatMap (sampleDataTracks B M G),
         st.featTracks ++ samples.flatMap (sampleFeatTracks B)⟩ := by
  induction samples with
  | nil => intro st; simp
  | cons s ss ih =>
    intro st
    simp only [List.foldl_cons, multiSampleStep_eq, ih]
    simp [List.append_assoc]

/-- The multi-sample document, with the loop flattened. -/
theorem multi_tree_eq (sample_ids : List Str) (locus genome base_url methylation_type : Str) :
    create_multi_sample_igv_session_tree sample_ids locus genome base_url methylation_type =
      .mk ("Session").data
        [(("genome").data, genome), (("locus").data, locus),
         (("version").data, ("8").data)]
        [.mk ("Resources").data []
           ([vcfResource base_url, vcfIhtResource base_url] ++
             sample_ids.flatMap (sampleResources base_url methylation_type genome)),
         .mk ("Panel").data
           [(("name").data, ("DataPanel").data), (("height").data, ("400").data)]
           (sample_ids.flatMap (sampleDataTracks base_url methylation_type genome)),
         .mk ("Panel").data
           [(("name").data, ("FeaturePanel").data), (("height").data, ("200").data)]
           (([vcfTrack base_url, vcfIhtTrack base_url] ++
              sample_ids.flatMap (sampleFeatTracks base_url)) ++ [refSequenceTrackMulti]),
         .mk ("PanelLayout").data [(("dividerFractions").data, ("0.60").data)] []] := by
  simp [create_multi_sample_igv_session_tree, foldl_multiSampleStep]

theorem panelTracks_multi_feat (sample_ids : List Str)
    (locus genome base_url methylation_type : Str) :
    panelTracks
        (create_multi_sample_igv_session_tree sample_ids locus genome base_url
          methylation_type) (("FeaturePanel").data) =
      [vcfTrack base_url, vcfIhtTrack base_url] ++
        sample_ids.flatMap (sampleFeatTracks base_url) ++ [refSequenceTrackMulti] := by
  rw [multi_tree_eq]
  simp only [panelTracks, XElem.children, XElem.tag, XElem.attrs]
  simp [List.filter_append, List.filter_eq_self, vcfTrack, vcfIhtTrack,
    refSequenceTrackMulti, List.append_assoc]
  intro a x _ ha
  simp only [sampleFeatTracks, List.mem_cons, List.not_mem_nil, or_false] at ha
  rcases ha with h | h <;> subst h <;> rfl

theorem panelTracks_multi_data (sample_ids : List Str)
    (locus genome base_url methylation_type : Str) :
    panelTracks
        (create_multi_sample_igv_session_tree sample_ids locus genome base_url
          methylation_type) (("DataPanel").data) =
      sample_ids.flatMap (sampleDataTracks base_url methylation_type genome) := by
  rw [multi_tree_eq]
  simp only [panelTracks, XElem.children, XElem.tag, XElem.attrs]
  simp [List.filter_append, List.filter_eq_self]
  intro a x _ ha
  simp only [sampleDataTracks, List.mem_cons, List.not_mem_nil, or_false] at ha
  rcases ha with h | h <;> subst h <;> rfl

theorem length_flatMap_pair {α : Type} (f : α → List XElem) (h : ∀ a, (f a).length = 2)
    (l : List α) : (l.flatMap f).length = 2 * l.length := by
  induction l with
  | nil => simp
  | cons x xs ih => simp [List.flatMap_cons, ih, h]; ring

/-- C3: for every list of sample IDs (including the empty list), the
multi-sample FeaturePanel contains exactly `2 + 2*len(sample_ids) + 1` Track
elements: the two fixed VCF variant tracks first, then the two haplotype-block
tracks per sample in input order (paternal before maternal), then the
reference-sequence track last. -/
theorem c3_feature_panel_track_count (sample_ids : List Str)
    (locus genome base_url methylation_type : Str) :
    panelTracks
        (create_multi_sample_igv_session_tree sample_ids locus genome base_url
          methylation_type) (("FeaturePanel").data) =
      [vcfTrack base_url, vcfIhtTrack base_url] ++
        sample_ids.flatMap
          (fun sid => [multiBlockTrack base_url sid (("paternal").data),
            multiBlockTrack base_url sid (("maternal").data)]) ++
        [refSequenceTrackMulti] ∧
    (panelTracks
        (create_multi_sample_igv_session_tree sample_ids locus genome base_url
          methylation_type) (("FeaturePanel").data)).length =
      2 + 2 * sample_ids.length + 1 := by
  have h := panelTracks_multi_feat sample_ids locus genome base_url methylation_type
  constructor
  · rw [h]; rfl
  · rw [h]
    simp [List.length_append,
      length_flatMap_pair (sampleFeatTracks base_url) (fun _ => rfl) sample_ids]
    omega

theorem multiMethTrack_name_pat (B sid M G : Str) :
    (multiMethTrack B sid M G (("pat").data)).getAttr (("name").data) =
      some (sid ++ (" PAT Methylation").data) := by
  rw [show (multiMethTrack B sid M G (("pat").data)).getAttr (("name").data) =
      some (((sid ++ (" ").data) ++ pyUpper (("pat").data)) ++ (" Methylation").data)
    from rfl]
  rw [List.append_assoc, List.append_assoc]
  exact congrArg some (congrArg (fun x => sid ++ x) (by decide))

theorem multiMethTrack_name_mat (B sid M G : Str) :
    (multiMethTrack B sid M G (("mat").data)).getAttr (("name").data) =
      some (sid ++ (" MAT Methylation").data) := by
  rw [show (multiMethTrack B sid M G (("mat").data)).getAttr (("name").data) =
      some (((sid ++ (" ").data) ++ pyUpper (("mat").data)) ++ (" Methylation").data)
    from rfl]
  rw [List.append_assoc, List.append_assoc]
  exact congrArg some (congrArg (fun x => sid ++ x) (by decide))

theorem multiBlockTrack_name_pat (B sid : Str) :
    (multiBlockTrack B sid (("paternal").data)).getAttr (("name").data) =
      some (sid ++ (" PAT Blocks").data) := by
  rw [show (multiBlockTrack B sid (("paternal").data)).getAttr (("name").data) =
      some (((sid ++ (" ").data) ++ (pyUpper (("paternal").data)).take 3) ++
        (" Blocks").data) from rfl]
  rw [List.append_assoc, List.append_assoc]
  exact congrArg some (congrArg (fun x => sid ++ x) (by decide))

theorem multiBlockTrack_name_mat (B sid : Str) :
    (multiBlockTrack B sid (("maternal").data)).getAttr (("name").data) =
      some (sid ++ (" MAT Blocks").data) := by
  rw [show (multiBlockTrack B sid (("maternal").data)).getAttr (("name").data) =
      some (((sid ++ (" ").data) ++ (pyUpper (("maternal").data)).take 3) ++
        (" Blocks").data) from rfl]
  rw [List.append_assoc, List.append_assoc]
  exact congrArg some (congrArg (fun x => sid ++ x) (by decide))

/-- C6: for every sample in the multi-sample builder's input, the per-sample
methylation Track names are exactly `"{sid} PAT Methylation"` and
`"{sid} MAT Methylation"`, and the haplotype-block Track names are exactly
`"{sid} PAT Blocks"` and `"{sid} MAT Blocks"` (the parent label being the
first three letters of `paternal`/`maternal`, uppercased). -/
theorem c6_per_sample_track_names (sample_ids : List Str)
    (locus genome base_url methylation_type : Str) :
    (panelTracks
        (create_multi_sample_igv_session_tree sample_ids locus genome base_url
          methylation_type) (("DataPanel").data)).map
        (fun e => e.getAttr (("name").data)) =
      sample_ids.flatMap
        (fun sid => [some (sid ++ (" PAT Methylation").data),
          some (sid ++ (" MAT Methylation").data)]) ∧
    (panelTracks
        (create_multi_sample_igv_session_tree sample_ids locus genome base_url
          methylation_type) (("FeaturePanel").data)).map
        (fun e => e.getAttr (("name").data)) =
      [some (("All variants").data), some (("Phased variants (PAT|MAT)").data)] ++
        sample_ids.flatMap
          (fun sid => [some (sid ++ (" PAT Blocks").data),
            some (sid ++ (" MAT Blocks").data)]) ++
        [some (("Reference sequence").data)] := by
  constructor
  · rw [panelTracks_multi_data, List.map_flatMap]
    congr 1
    funext sid
    rw [show sampleDataTracks base_url methylation_type genome sid =
        [multiMethTrack base_url sid methylation_type genome (("pat").data),
         multiMethTrack base_url sid methylation_type genome (("mat").data)] from rfl]
    rw [List.map_cons, List.map_cons, List.map_nil]
    rw [multiMethTrack_name_pat, multiMethTrack_name_mat]
  · rw [panelTracks_multi_feat]
    simp only [List.map_append, List.map_flatMap, List.map_cons, List.map_nil]
    have hfm : (sample_ids.flatMap
        (fun a => (sampleFeatTracks base_url a).map
          (fun e => e.getAttr (("name").data)))) =
        sample_ids.flatMap
          (fun sid => [some (sid ++ (" PAT Blocks").data),
            some (sid ++ (" MAT Blocks").data)]) := by
      congr 1
      funext sid
      rw [show sampleFeatTracks base_url sid =
          [multiBlockTrack base_url sid (("paternal").data),
           multiBlockTrack base_url sid (("maternal").data)] from rfl]
      rw [List.map_cons, List.map_cons, List.map_nil]
      rw [multiBlockTrack_name_pat, multiBlockTrack_name_mat]
    rw [show (vcfTrack base_url).getAttr (("name").data) =
        some (("All variants").data) from rfl]
    rw [show (vcfIhtTrack base_url).getAttr (("name").data) =
        some (("Phased variants (PAT|MAT)").data) from rfl]
    rw [show refSequenceTrackMulti.getAttr (("name").data) =
        some (("Reference sequence").data) from rfl]
    rw [hfm]

/-! ## C2: index attributes of Resources -/

theorem resourceOk_singleMatBw (B I M G : Str) :
    resourceOk (singleMatBwResource B I M G) = true := rfl

theorem resourceOk_singlePatBw (B I M G : Str) :
    resourceOk (singlePatBwResource B I M G) = true := rfl

theorem resourceOk_singlePatBed (B I : Str) :
    resourceOk (singlePatBedResource B I) = true := by
  rw [show resourceOk (singlePatBedResource B I) =
      ((patBedIndex B I == patBedPath B I ++ (".tbi").data) &&
        !(patBedIndex B I).isEmpty) from rfl]
  rw [show patBedIndex B I = patBedPath B I ++ (".tbi").data from by
    simp [patBedIndex, patBedPath]]
  simp

theorem resourceOk_singleMatBed (B I : Str) :
    resourceOk (singleMatBedResource B I) = true := by
  rw [show resourceOk (singleMatBedResource B I) =
      ((matBedIndex B I == matBedPath B I ++ (".tbi").data) &&
        !(matBedIndex B I).isEmpty) from rfl]
  rw [show matBedIndex B I = matBedPath B I ++ (".tbi").data from by
    simp [matBedIndex, matBedPath]]
  simp

theorem resourceOk_singleBam (B I : Str) :
    resourceOk (singleBamResource B I) = true := by
  rw [show resourceOk (singleBamResource B I) =
      ((bamIndex B I == bamPath B I ++ (".bai").data) &&
        !(bamIndex B I).isEmpty) from rfl]
  rw [show bamIndex B I = bamPath B I ++ (".bai").data from by
    simp [bamIndex, bamPath]]
  simp

theorem resourceOk_vcf (B : Str) : resourceOk (vcfResource B) = true := by
  rw [show resourceOk (vcfResource B) =
      ((vcfPath B ++ (".tbi").data == vcfPath B ++ (".tbi").data) &&
        !(vcfPath B ++ (".tbi").data).isEmpty) from rfl]
  simp

theorem resourceOk_vcfIht (B : Str) : resourceOk (vcfIhtResource B) = true := by
  rw [show resourceOk (vcfIhtResource B) =
      ((vcfIhtPath B ++ (".tbi").data == vcfIhtPath B ++ (".tbi").data) &&
        !(vcfIhtPath B ++ (".tbi").data).isEmpty) from rfl]
  simp

theorem resourceOk_multiBw (B sid M G parent : Str) :
    resourceOk (multiBwResource B sid M G parent) = true := rfl

theorem resourceOk_multiBed (B sid parent : Str) :
    resourceOk (multiBedResource B sid parent) = true := by
  rw [show resourceOk (multiBedResource B sid parent) =
      ((multiBedPath B sid parent ++ (".tbi").data ==
          multiBedPath B sid parent ++ (".tbi").data) &&
        !(multiBedPath B sid parent ++ (".tbi").data).isEmpty) from rfl]
  simp

theorem allElemsList_append (l₁ l₂ : List XElem) :
    allElemsList (l₁ ++ l₂) = allElemsList l₁ ++ allElemsList l₂ := by
  induction l₁ with
  | nil => simp [allElemsList]
  | cons x xs ih => simp [allElemsList, ih]

theorem allElemsList_flatMap (f : Str → List XElem) (l : List Str) :
    allElemsList (l.flatMap f) = l.flatMap (fun s => allElemsList (f s)) := by
  induction l with
  | nil => simp [allElemsList]
  | cons x xs ih => simp [List.flatMap_cons, allElemsList_append, ih]

theorem filter_flatMap_elems (p : XElem → Bool) (f : Str → List XElem) (l : List Str) :
    (l.flatMap f).filter p = l.flatMap (fun s => (f s).filter p) := by
  induction l with
  | nil => simp
  | cons x xs ih => simp [List.flatMap_cons, List.filter_append, ih]

/-- The Resource elements of the single-individual document. -/
theorem resourceElems_single (individual_id locus genome base_url : Str)
    (include_bam_tracks : Bool) (methylation_type : Str) :
    resourceElems (create_igv_session_tree individual_id locus genome base_url
        include_bam_tracks methylation_type) =
      [singleMatBwResource base_url individual_id methylation_type genome,
       singlePatBwResource base_url individual_id methylation_type genome,
       singlePatBedResource base_url individual_id,
       singleMatBedResource base_url individual_id] ++
      (if include_bam_tracks then [singleBamResource base_url individual_id] else []) := by
  cases include_bam_tracks <;>
    simp [resourceElems, create_igv_session_tree, allElems, allElemsList,
      singleMatBwResource, singlePatBwResource, singlePatBedResource,
      singleMatBedResource, singleBamResource, singleDataPanel, singlePatTrack,
      singleMatTrack, singleDataRange, singleBamPanel, coverageTrack, covDataRange,
      alignmentTrack, renderOptionsElem, singleFeaturePanel, refSequenceTrackSingle,
      refseqSelectTrack, patHapTrack, matHapTrack, XElem.tag]

theorem allElems_mk (t : Str) (a : List (Str × Str)) (cs : List XElem) :
    allElems (.mk t a cs) = .mk t a cs :: allElemsList cs := rfl

theorem allElemsList_cons (c : XElem) (cs : List XElem) :
    allElemsList (c :: cs) = allElems c ++ allElemsList cs := rfl

theorem allElemsList_nil : allElemsList [] = [] := rfl

theorem allElemsList_sampleResources (B M G s : Str) :
    allElemsList (sampleResources B M G s) = sampleResources B M G s := rfl

theorem allElemsList_sampleDataTracks (B M G s : Str) :
    allElemsList (sampleDataTracks B M G s) =
      [multiMethTrack B s M G (("pat").data), multiDataRange,
       multiMethTrack B s M G (("mat").data), multiDataRange] := rfl

theorem allElemsList_sampleFeatTracks (B s : Str) :
    allElemsList (sampleFeatTracks B s) = sampleFeatTracks B s := rfl

theorem filter_resource_sampleResources (B M G s : Str) :
    (sampleResources B M G s).filter (fun e => e.tag == ("Resource").data) =
      sampleResources B M G s := rfl

theorem filter_resource_sampleData (B M G s : Str) :
    ([multiMethTrack B s M G (("pat").data), multiDataRange,
      multiMethTrack B s M G (("mat").data), multiDataRange]).filter
        (fun e => e.tag == ("Resource").data) = [] := rfl

theorem filter_resource_sampleFeat (B s : Str) :
    (sampleFeatTracks B s).filter (fun e => e.tag == ("Resource").data) = [] := rfl

theorem allElems_vcfResource (B : Str) : allElems (vcfResource B) = [vcfResource B] := rfl

theorem allElems_vcfIhtResource (B : Str) :
    allElems (vcfIhtResource B) = [vcfIhtResource B] := rfl

theorem allElems_vcfTrack (B : Str) : allElems (vcfTrack B) = [vcfTrack B] := rfl

theorem allElems_vcfIhtTrack (B : Str) : allElems (vcfIhtTrack B) = [vcfIhtTrack B] := rfl

theorem allElems_refSequenceTrackMulti :
    allElems refSequenceTrackMulti = [refSequenceTrackMulti] := rfl

theorem tag_multiMethTrack (B s M G p : Str) :
    (multiMethTrack B s M G p).tag = ("Track").data := rfl

theorem tag_multiDataRange : multiDataRange.tag = ("DataRange").data := rfl

theorem tag_multiBlockTrack (B s p : Str) :
    (multiBlockTrack B s p).tag = ("Track").data := rfl

theorem tag_multiBwResource (B s M G p : Str) :
    (multiBwResource B s M G p).tag = ("Resource").data := rfl

theorem tag_multiBedResource (B s p : Str) :
    (multiBedResource B s p).tag = ("Resource").data := rfl

theorem tag_mk (t : Str) (a : List (Str × Str)) (cs : List XElem) :
    (XElem.mk t a cs).tag = t := rfl

theorem flatMap_const_nil {α β : Type} (l : List α) :
    (l.flatMap fun _ => ([] : List β)) = [] := by
  induction l with
  | nil => rfl
  | cons x xs ih => simp [List.flatMap_cons, ih]

theorem tag_vcfResource (B : Str) : (vcfResource B).tag = ("Resource").data := rfl

theorem tag_vcfIhtResource (B : Str) : (vcfIhtResource B).tag = ("Resource").data := rfl

theorem tag_vcfTrack (B : Str) : (vcfTrack B).tag = ("Track").data := rfl

theorem tag_vcfIhtTrack (B : Str) : (vcfIhtTrack B).tag = ("Track").data := rfl

theorem tag_refSequenceTrackMulti : refSequenceTrackMulti.tag = ("Track").data := rfl

/-- The Resource elements of the multi-sample document. -/
theorem resourceElems_multi (sample_ids : List Str)
    (locus genome base_url methylation_type : Str) :
    resourceElems (create_multi_sample_igv_session_tree sample_ids locus genome base_url
        methylation_type) =
      [vcfResource base_url, vcfIhtResource base_url] ++
        sample_ids.flatMap (sampleResources base_url methylation_type genome) := by
  rw [multi_tree_eq]
  simp only [resourceElems, allElems_mk, allElemsList_cons, allElemsList_nil,
    allElemsList_append, allElemsList_flatMap, allElemsList_sampleResources,
    allElemsList_sampleDataTracks, allElemsList_sampleFeatTracks,
    allElems_vcfResource, allElems_vcfIhtResource, allElems_vcfTrack,
    allElems_vcfIhtTrack, allElems_refSequenceTrackMulti,
    List.filter_append, filter_flatMap_elems, filter_resource_sampleResources,
    filter_resource_sampleData, filter_resource_sampleFeat,
    List.append_nil, List.nil_append]
  simp [tag_mk, tag_vcfResource, tag_vcfIhtResource, tag_vcfTrack, tag_vcfIhtTrack,
    tag_refSequenceTrackMulti, filter_flatMap_elems, filter_resource_sampleResources,
    filter_resource_sampleData, filter_resource_sampleFeat, flatMap_const_nil]
  intro x _
  simp [tag_multiMethTrack, tag_multiDataRange]

/-- C2: in both builders, every Resource of type `bed`, `bam` or `vcf` carries
a non-empty `index` attribute equal to its `path` plus the format-appropriate
suffix (`.tbi` for bed and vcf, `.bai` for bam), and every Resource of type
`bw` carries no `index` attribute. -/
theorem c2_resource_index_attrs :
    (∀ individual_id locus genome base_url (include_bam_tracks : Bool) methylation_type,
      ((resourceElems (create_igv_session_tree individual_id locus genome base_url
          include_bam_tracks methylation_type)).all resourceOk) = true) ∧
    (∀ sample_ids locus genome base_url methylation_type,
      ((resourceElems (create_multi_sample_igv_session_tree sample_ids locus genome
          base_url methylation_type)).all resourceOk) = true) := by
  constructor
  · intro I L G B bam M
    rw [resourceElems_single]
    rw [List.all_eq_true]
    intro e he
    rw [List.mem_append] at he
    rcases he with he | he
    · simp only [List.mem_cons, List.not_mem_nil, or_false] at he
      rcases he with h | h | h | h <;> subst h
      · exact resourceOk_singleMatBw B I M G
      · exact resourceOk_singlePatBw B I M G
      · exact resourceOk_singlePatBed B I
      · exact resourceOk_singleMatBed B I
    · cases bam with
      | false => simp at he
      | true =>
        simp only [if_pos, List.mem_cons, List.not_mem_nil, or_false] at he
        subst he
        exact resourceOk_singleBam B I
  · intro ids L G B M
    rw [resourceElems_multi]
    rw [List.all_eq_true]
    intro e he
    rw [List.mem_append] at he
    rcases he with he | he
    · simp only [List.mem_cons, List.not_mem_nil, or_false] at he
      rcases he with h | h <;> subst h
      · exact resourceOk_vcf B
      · exact resourceOk_vcfIht B
    · rw [List.mem_flatMap] at he
      obtain ⟨sid, _, hmem⟩ := he
      simp only [sampleResources, List.mem_cons, List.not_mem_nil, or_false] at hmem
      rcases hmem with h | h | h | h <;> subst h
      · exact resourceOk_multiBw B sid M G (("pat").data)
      · exact resourceOk_multiBw B sid M G (("mat").data)
      · exact resourceOk_multiBed B sid (("paternal").data)
      · exact resourceOk_multiBed B sid (("maternal").data)

/-! ## C10: shape of the serialized output -/

theorem splitNl_ne_nil (s : Str) : splitNl s ≠ [] := by
  induction s with
  | nil => simp [splitNl]
  | cons c r ih =>
    rw [splitNl]
    split
    · simp
    · cases h : splitNl r with
      | nil => exact absurd h ih
      | cons x t => simp

theorem splitNl_no_nl (s : Str) : ∀ p ∈ splitNl s, '\n' ∉ p := by
  induction s with
  | nil =>
    intro p hp
    simp [splitNl] at hp
    simp [hp]
  | cons c r ih =>
    intro p hp
    rw [splitNl] at hp
    by_cases hc : c = '\n'
    · rw [if_pos hc] at hp
      rcases List.mem_cons.mp hp with h | h
      · simp [h]
      · exact ih p h
    · rw [if_neg hc] at hp
      cases h : splitNl r with
      | nil => exact absurd h (splitNl_ne_nil r)
      | cons x t =>
        rw [h] at hp
        rcases List.mem_cons.mp hp with h2 | h2
        · subst h2
          intro hmem
          rcases List.mem_cons.mp hmem with h3 | h3
          · exact hc h3.symm
          · exact ih x (h ▸ List.mem_cons_self x t) h3
        · exact ih p (h ▸ List.mem_cons_of_mem x h2)

theorem splitNl_append_cons (a : Str) (b : Str) (ha : '\n' ∉ a) :
    splitNl (a ++ '\n' :: b) = a :: splitNl b := by
  induction a with
  | nil => simp [splitNl]
  | cons c a' ih =>
    have hc : c ≠ '\n' := fun h => ha (h ▸ List.mem_cons_self c a')
    have ha' : '\n' ∉ a' := fun h => ha (List.mem_cons_of_mem c h)
    rw [List.cons_append, splitNl, if_neg hc, ih ha']

theorem splitNl_joinNl (ps : List Str) (h : ∀ p ∈ ps, '\n' ∉ p) (hne : ps ≠ []) :
    splitNl (joinNl ps) = ps := by
  induction ps with
  | nil => exact absurd rfl hne
  | cons x xs ih =>
    cases xs with
    | nil =>
      rw [joinNl]
      have hx : '\n' ∉ x := h x (List.mem_cons_self x [])
      clear h ih hne
      induction x with
      | nil => simp [splitNl]
      | cons c r ihx =>
        have hc : c ≠ '\n' := fun hh => hx (hh ▸ List.mem_cons_self c r)
        have hr : '\n' ∉ r := fun hh => hx (List.mem_cons_of_mem c hh)
        rw [splitNl, if_neg hc, ihx hr]
    | cons y t =>
      rw [joinNl, splitNl_append_cons x (joinNl (y :: t)) (h x (List.mem_cons_self x _))]
      rw [ih (fun p hp => h p (List.mem_cons_of_mem x hp)) (by simp)]

theorem isPrefixOf_append_self (a b : Str) : a.isPrefixOf (a ++ b) = true :=
  List.isPrefixOf_iff_prefix.mpr (List.prefix_append a b)

/-- The shared serialization step always yields a string that starts with the
XML declaration line and whose lines are all non-blank. -/
theorem serializeSession_spec (root : XElem) :
    xmlDeclLine.isPrefixOf (serializeSession root) = true ∧
    (splitNl (serializeSession root)).all keepLine = true := by
  have hdecl_nl : ('\n' ∉ xmlDeclLine) := by decide
  have hsplit : splitNl (toprettyxml root) =
      xmlDeclLine :: splitNl (writeElem [] root) :=
    splitNl_append_cons _ _ hdecl_nl
  have hkeep : keepLine xmlDeclLine = true := by decide
  have hfil : (splitNl (toprettyxml root)).filter keepLine =
      xmlDeclLine :: (splitNl (writeElem [] root)).filter keepLine := by
    rw [hsplit, List.filter_cons, if_pos hkeep]
  have hser : serializeSession root =
      joinNl (xmlDeclLine :: (splitNl (writeElem [] root)).filter keepLine) := by
    rw [serializeSession, hfil]
  have hnlK : ∀ p ∈ xmlDeclLine :: (splitNl (writeElem [] root)).filter keepLine,
      '\n' ∉ p := by
    intro p hp
    rcases List.mem_cons.mp hp with h | h
    · subst h; exact hdecl_nl
    · exact splitNl_no_nl _ p (List.mem_of_mem_filter h)
  constructor
  · rw [hser]
    cases hK : (splitNl (writeElem [] root)).filter keepLine with
    | nil =>
      rw [joinNl]
      simp [isPrefixOf_append_self xmlDeclLine []]
    | cons y t =>
      rw [joinNl]
      exact isPrefixOf_append_self xmlDeclLine ('\n' :: joinNl (y :: t))
  · rw [hser, splitNl_joinNl _ hnlK (by simp), List.all_eq_true]
    intro p hp
    rcases List.mem_cons.mp hp with h | h
    · subst h; exact hkeep
    · exact List.of_mem_filter h

/-- C10: for every input, the string returned by either builder begins with
the XML declaration line `<?xml version="1.0" ?>`, and no line of it is empty
or whitespace-only. -/
theorem c10_output_shape :
    (∀ individual_id locus genome base_url (include_bam_tracks : Bool) methylation_type,
      xmlDeclLine.isPrefixOf (create_igv_session individual_id locus genome base_url
          include_bam_tracks methylation_type) = true ∧
      ((splitNl (create_igv_session individual_id locus genome base_url
          include_bam_tracks methylation_type)).all keepLine) = true) ∧
    (∀ sample_ids locus genome base_url methylation_type,
      xmlDeclLine.isPrefixOf (create_multi_sample_igv_session sample_ids locus genome
          base_url methylation_type) = true ∧
      ((splitNl (create_multi_sample_igv_session sample_ids locus genome base_url
          methylation_type)).all keepLine) = true) := by
  constructor
  · intro I L G B bam M
    exact serializeSession_spec _
  · intro ids L G B M
    exact serializeSession_spec _

/-! ## C7: the attribute-value round trip -/

theorem parseAttrValue_nil : parseAttrValue [] = some [] := by
  simp [parseAttrValue]

theorem parse_plain (c : Char) (r : Str) (h1 : c ≠ '<') (h2 : c ≠ '"') (h3 : c ≠ '&')
    (h4 : c ≠ '\r') (h5 : c ≠ '\n') (h6 : c ≠ '\t') :
    parseAttrValue (c :: r) = Option.map (fun t => c :: t) (parseAttrValue r) := by
  rw [parseAttrValue.eq_def]
  simp [h1, h2, h3, h4, h5, h6]

theorem parse_amp (r : Str) :
    parseAttrValue ('&' :: 'a' :: 'm' :: 'p' :: ';' :: r) =
      Option.map (fun t => '&' :: t) (parseAttrValue r) := by
  simp [parseAttrValue]

theorem parse_lt (r : Str) :
    parseAttrValue ('&' :: 'l' :: 't' :: ';' :: r) =
      Option.map (fun t => '<' :: t) (parseAttrValue r) := by
  simp [parseAttrValue]

theorem parse_gt (r : Str) :
    parseAttrValue ('&' :: 'g' :: 't' :: ';' :: r) =
      Option.map (fun t => '>' :: t) (parseAttrValue r) := by
  simp [parseAttrValue]

theorem parse_quot (r : Str) :
    parseAttrValue ('&' :: 'q' :: 'u' :: 'o' :: 't' :: ';' :: r) =
      Option.map (fun t => '"' :: t) (parseAttrValue r) := by
  simp [parseAttrValue]

theorem parse_ref13 (r : Str) :
    parseAttrValue ('&' :: '#' :: '1' :: '3' :: ';' :: r) =
      Option.map (fun t => '\r' :: t) (parseAttrValue r) := by
  have hd : List.dropWhile Char.isDigit ('1' :: '3' :: ';' :: r) = ';' :: r := by
    simp [List.dropWhile]
  have ht : List.takeWhile Char.isDigit ('1' :: '3' :: ';' :: r) = ['1', '3'] := by
    simp [List.takeWhile]
  simp [parseAttrValue, hd, ht]
  rw [if_pos (by decide)]
  rw [show Char.ofNat (decDigitsVal ['1', '3']) = '\r' from by decide]

theorem parse_ref10 (r : Str) :
    parseAttrValue ('&' :: '#' :: '1' :: '0' :: ';' :: r) =
      Option.map (fun t => '\n' :: t) (parseAttrValue r) := by
  have hd : List.dropWhile Char.isDigit ('1' :: '0' :: ';' :: r) = ';' :: r := by
    simp [List.dropWhile]
  have ht : List.takeWhile Char.isDigit ('1' :: '0' :: ';' :: r) = ['1', '0'] := by
    simp [List.takeWhile]
  simp [parseAttrValue, hd, ht]
  rw [if_pos (by decide)]
  rw [show Char.ofNat (decDigitsVal ['1', '0']) = '\n' from by decide]

theorem parse_ref09 (r : Str) :
    parseAttrValue ('&' :: '#' :: '0' :: '9' :: ';' :: r) =
      Option.map (fun t => '\t' :: t) (parseAttrValue r) := by
  have hd : List.dropWhile Char.isDigit ('0' :: '9' :: ';' :: r) = ';' :: r := by
    simp [List.dropWhile]
  have ht : List.takeWhile Char.isDigit ('0' :: '9' :: ';' :: r) = ['0', '9'] := by
    simp [List.takeWhile]
  simp [parseAttrValue, hd, ht]
  rw [if_pos (by decide)]
  rw [show Char.ofNat (decDigitsVal ['0', '9']) = '\t' from by decide]

theorem parse_nl (r : Str) :
    parseAttrValue ('\n' :: r) = Option.map (fun t => ' ' :: t) (parseAttrValue r) := by
  rw [parseAttrValue.eq_def]
  simp

/-- A conforming reader recovers every attribute value exactly from
ElementTree's escaping: this is why minidom's DOM holds the original values. -/
theorem parseAttrValue_escapeET (v : Str) : parseAttrValue (escapeET v) = some v := by
  induction v with
  | nil => simp [escapeET, parseAttrValue]
  | cons c v' ih =>
    rw [show escapeET (c :: v') = escapeETChar c ++ escapeET v' from rfl]
    by_cases h1 : c = '&'
    · subst h1
      rw [show escapeETChar '&' ++ escapeET v' =
          '&' :: 'a' :: 'm' :: 'p' :: ';' :: escapeET v' from rfl]
      rw [parse_amp, ih]
      rfl
    by_cases h2 : c = '<'
    · subst h2
      rw [show escapeETChar '<' ++ escapeET v' =
          '&' :: 'l' :: 't' :: ';' :: escapeET v' from rfl]
      rw [parse_lt, ih]
      rfl
    by_cases h3 : c = '>'
    · subst h3
      rw [show escapeETChar '>' ++ escapeET v' =
          '&' :: 'g' :: 't' :: ';' :: escapeET v' from rfl]
      rw [parse_gt, ih]
      rfl
    by_cases h4 : c = '"'
    · subst h4
      rw [show escapeETChar '"' ++ escapeET v' =
          '&' :: 'q' :: 'u' :: 'o' :: 't' :: ';' :: escapeET v' from rfl]
      rw [parse_quot, ih]
      rfl
    by_cases h5 : c = '\r'
    · subst h5
      rw [show escapeETChar '\r' ++ escapeET v' =
          '&' :: '#' :: '1' :: '3' :: ';' :: escapeET v' from rfl]
      rw [parse_ref13, ih]
      rfl
    by_cases h6 : c = '\n'
    · subst h6
      rw [show escapeETChar '\n' ++ escapeET v' =
          '&' :: '#' :: '1' :: '0' :: ';' :: escapeET v' from rfl]
      rw [parse_ref10, ih]
      rfl
    by_cases h7 : c = '\t'
    · subst h7
      rw [show escapeETChar '\t' ++ escapeET v' =
          '&' :: '#' :: '0' :: '9' :: ';' :: escapeET v' from rfl]
      rw [parse_ref09, ih]
      rfl
    · rw [show escapeETChar c = [c] from by
        simp [escapeETChar, h1, h2, h3, h4, h5, h6, h7]]
      rw [List.singleton_append, parse_plain c _ h2 h4 h1 h5 h6 h7, ih]
      rfl

/-- A conforming reader recovers a value exactly from minidom's escaping,
provided the value holds no literal tab, newline or carriage return (those
are re-emitted raw by minidom and then normalized to spaces on re-read). -/
theorem parseAttrValue_escapeMinidom (v : Str)
    (hv : ∀ c ∈ v, c ≠ '\n' ∧ c ≠ '\r' ∧ c ≠ '\t') :
    parseAttrValue (escapeMinidom v) = some v := by
  induction v with
  | nil => simp [escapeMinidom, parseAttrValue]
  | cons c v' ih =>
    have hv' : ∀ x ∈ v', x ≠ '\n' ∧ x ≠ '\r' ∧ x ≠ '\t' :=
      fun x hx => hv x (List.mem_cons_of_mem c hx)
    have hc := hv c (List.mem_cons_self c v')
    have ih' := ih hv'
    rw [show escapeMinidom (c :: v') = escapeMinidomChar c ++ escapeMinidom v' from rfl]
    by_cases h1 : c = '&'
    · subst h1
      rw [show escapeMinidomChar '&' ++ escapeMinidom v' =
          '&' :: 'a' :: 'm' :: 'p' :: ';' :: escapeMinidom v' from rfl]
      rw [parse_amp, ih']
      rfl
    by_cases h2 : c = '<'
    · subst h2
      rw [show escapeMinidomChar '<' ++ escapeMinidom v' =
          '&' :: 'l' :: 't' :: ';' :: escapeMinidom v' from rfl]
      rw [parse_lt, ih']
      rfl
    by_cases h3 : c = '"'
    · subst h3
      rw [show escapeMinidomChar '"' ++ escapeMinidom v' =
          '&' :: 'q' :: 'u' :: 'o' :: 't' :: ';' :: escapeMinidom v' from rfl]
      rw [parse_quot, ih']
      rfl
    by_cases h4 : c = '>'
    · subst h4
      rw [show escapeMinidomChar '>' ++ escapeMinidom v' =
          '&' :: 'g' :: 't' :: ';' :: escapeMinidom v' from rfl]
      rw [parse_gt, ih']
      rfl
    · rw [show escapeMinidomChar c = [c] from by
        simp [escapeMinidomChar, h1, h2, h3, h4]]
      rw [List.singleton_append, parse_plain c _ h2 h3 h1 hc.2.1 hc.1 hc.2.2, ih']
      rfl

/-- C7 (amended): for attribute values whose characters include no literal
tab, newline or carriage return, the full pipeline — ElementTree escaping,
minidom re-parse and re-escape, final read by a conforming XML processor —
returns exactly the input value; in particular the `locus` stored in the
document is the locus argument, and it round-trips verbatim. -/
theorem c7_attr_roundtrip (individual_id locus genome base_url : Str)
    (include_bam_tracks : Bool) (methylation_type : Str)
    (hl : ∀ c ∈ locus, c ≠ '\n' ∧ c ≠ '\r' ∧ c ≠ '\t') :
    (create_igv_session_tree individual_id locus genome base_url include_bam_tracks
        methylation_type).getAttr (("locus").data) = some locus ∧
    xmlAttrRoundTrip locus = some locus := by
  refine ⟨rfl, ?_⟩
  rw [xmlAttrRoundTrip, parseAttrValue_escapeET]
  exact parseAttrValue_escapeMinidom locus hl

theorem c7_attr_roundtrip_witness :
    (∀ c ∈ ("chr14:100826000-100827000").data, c ≠ '\n' ∧ c ≠ '\r' ∧ c ≠ '\t') ∧
    ((create_igv_session_tree (("x").data) (("chr14:100826000-100827000").data)
        (("hg38").data) (("u").data) true (("count").data)).getAttr (("locus").data) =
      some (("chr14:100826000-100827000").data) ∧
    xmlAttrRoundTrip (("chr14:100826000-100827000").data) =
      some (("chr14:100826000-100827000").data)) :=
  ⟨by decide,
   c7_attr_roundtrip (("x").data) (("chr14:100826000-100827000").data) (("hg38").data)
     (("u").data) true (("count").data) (by decide)⟩

/-- C7 counterexample: a locus containing a literal newline is stored verbatim
in the document, but the pipeline returns it with the newline turned into a
space, so the parsed attribute value differs from the input. -/
theorem c7_counterexample :
    (create_igv_session_tree (("x").data) (("a\nb").data) (("g").data) (("u").data)
        true (("c").data)).getAttr (("locus").data) = some (("a\nb").data) ∧
    xmlAttrRoundTrip (("a\nb").data) = some (("a b").data) ∧
    (("a b").data : Str) ≠ (("a\nb").data) := by
  refine ⟨rfl, ?_, by decide⟩
  rw [xmlAttrRoundTrip, parseAttrValue_escapeET]
  rw [show Option.bind (some (("a\nb").data))
      (fun w => parseAttrValue (escapeMinidom w)) =
      parseAttrValue (escapeMinidom (("a\nb").data)) from rfl]
  rw [show escapeMinidom (("a\nb").data) = 'a' :: '\n' :: 'b' :: [] from by decide]
  rw [parse_plain 'a' _ (by decide) (by decide) (by decide) (by decide) (by decide)
    (by decide)]
  rw [parse_nl]
  rw [parse_plain 'b' _ (by decide) (by decide) (by decide) (by decide) (by decide)
    (by decide)]
  rw [parseAttrValue_nil]
  rfl

/-! ## C8: uniqueness of Track ids -/

theorem getAttr_id_singlePatTrack (B I M G : Str) :
    (singlePatTrack B I M G).getAttr (("id").data) = some (patBwPath B I M G) := rfl

theorem getAttr_id_singleMatTrack (B I M G : Str) :
    (singleMatTrack B I M G).getAttr (("id").data) = some (matBwPath B I M G) := rfl

theorem getAttr_id_coverageTrack (B I : Str) :
    (coverageTrack B I).getAttr (("id").data) = some (covId B I) := rfl

theorem getAttr_id_alignmentTrack (B I : Str) :
    (alignmentTrack B I).getAttr (("id").data) = some (bamPath B I) := rfl

theorem getAttr_id_refSequenceTrackSingle :
    refSequenceTrackSingle.getAttr (("id").data) = some (("Reference sequence").data) := rfl

theorem getAttr_id_refseqSelectTrack :
    refseqSelectTrack.getAttr (("id").data) = some refseqSelectUrl := rfl

theorem getAttr_id_patHapTrack (B I : Str) :
    (patHapTrack B I).getAttr (("id").data) = some (patBedPath B I) := rfl

theorem getAttr_id_matHapTrack (B I : Str) :
    (matHapTrack B I).getAttr (("id").data) = some (matBedPath B I) := rfl

/-- The Track ids of the single-individual document, in document order. -/
theorem trackIds_single (individual_id locus genome base_url : Str)
    (include_bam_tracks : Bool) (methylation_type : Str) :
    trackIds (create_igv_session_tree individual_id locus genome base_url
        include_bam_tracks methylation_type) =
      [patBwPath base_url individual_id methylation_type genome,
       matBwPath base_url individual_id methylation_type genome] ++
      (if include_bam_tracks then [covId base_url individual_id,
        bamPath base_url individual_id] else []) ++
      [("Reference sequence").data, refseqSelectUrl,
       patBedPath base_url individual_id, matBedPath base_url individual_id] := by
  cases include_bam_tracks <;>
    simp [trackIds, create_igv_session_tree, allElems, allElemsList,
      singleMatBwResource, singlePatBwResource, singlePatBedResource,
      singleMatBedResource, singleBamResource, singleDataPanel, singlePatTrack,
      singleMatTrack, singleDataRange, singleBamPanel, coverageTrack, covDataRange,
      alignmentTrack, renderOptionsElem, singleFeaturePanel, refSequenceTrackSingle,
      refseqSelectTrack, patHapTrack, matHapTrack, XElem.tag, XElem.getAttr,
      XElem.attrs, List.lookup]

theorem ne_by_lastN {n : Nat} {a b u v : Str} (ha : lastN n a = u) (hb : lastN n b = v)
    (huv : u ≠ v) : a ≠ b :=
  ne_of_lastN_ne (fun h => huv (by rw [← ha, ← hb, h]))

theorem lastN3_patBwPath (B I M G : Str) :
    lastN 3 (patBwPath B I M G) = ("wb.").data := by
  simp only [patBwPath]
  rw [lastN_append]
  · decide
  · decide

theorem lastN3_matBwPath (B I M G : Str) :
    lastN 3 (matBwPath B I M G) = ("wb.").data := by
  simp only [matBwPath]
  rw [lastN_append]
  · decide
  · decide

theorem lastN3_covId (B I : Str) : lastN 3 (covId B I) = ("ega").data := by
  simp only [covId]
  rw [lastN_append]
  · decide
  · decide

theorem lastN3_bamPath (B I : Str) : lastN 3 (bamPath B I) = ("mab").data := by
  simp only [bamPath]
  rw [lastN_append]
  · decide
  · decide

theorem lastN3_patBedPath (B I : Str) : lastN 3 (patBedPath B I) = ("zg.").data := by
  simp only [patBedPath]
  rw [lastN_append]
  · decide
  · decide

theorem lastN3_matBedPath (B I : Str) : lastN 3 (matBedPath B I) = ("zg.").data := by
  simp only [matBedPath]
  rw [lastN_append]
  · decide
  · decide

theorem lastN7_patBedPath (B I : Str) :
    lastN 7 (patBedPath B I) = ("zg.deb.").data := by
  simp only [patBedPath]
  rw [lastN_append]
  · decide
  · decide

theorem lastN7_matBedPath (B I : Str) :
    lastN 7 (matBedPath B I) = ("zg.deb.").data := by
  simp only [matBedPath]
  rw [lastN_append]
  · decide
  · decide

theorem patBw_ne_matBw (B I M G : Str) : patBwPath B I M G ≠ matBwPath B I M G := by
  intro h
  simp only [patBwPath, matBwPath] at h
  have h1 := List.append_cancel_right h
  have h2 := List.append_cancel_right h1
  have h3 := List.append_cancel_right h2
  have h4 := List.append_cancel_right h3
  have h5 := List.append_cancel_left h4
  exact absurd h5 (by decide)

theorem patBed_ne_matBed (B I : Str) : patBedPath B I ≠ matBedPath B I := by
  intro h
  simp only [patBedPath, matBedPath] at h
  exact absurd (List.append_cancel_left h) (by decide)

theorem lastN3_refSeqId : lastN 3 (("Reference sequence").data) = ("ecn").data := by
  decide

theorem lastN3_refseqSelectUrl : lastN 3 refseqSelectUrl = ("zg.").data := by decide

theorem lastN7_refseqSelectUrl : lastN 7 refseqSelectUrl = ("zg.txt.").data := by decide

theorem trackIds_single_pairwise (individual_id locus genome base_url : Str)
    (include_bam_tracks : Bool) (methylation_type : Str) :
    (trackIds (create_igv_session_tree individual_id locus genome base_url
        include_bam_tracks methylation_type)).Pairwise (fun a b => a ≠ b) := by
  have e12 := patBw_ne_matBw base_url individual_id methylation_type genome
  have l1 := lastN3_patBwPath base_url individual_id methylation_type genome
  have l2 := lastN3_matBwPath base_url individual_id methylation_type genome
  have l3 := lastN3_covId base_url individual_id
  have l4 := lastN3_bamPath base_url individual_id
  have l7 := lastN3_patBedPath base_url individual_id
  have l8 := lastN3_matBedPath base_url individual_id
  have m7 := lastN7_patBedPath base_url individual_id
  have m8 := lastN7_matBedPath base_url individual_id
  have e78 := patBed_ne_matBed base_url individual_id
  rw [trackIds_single]
  cases include_bam_tracks
  · simp only [Bool.false_eq_true, if_false, List.cons_append, List.nil_append,
      List.pairwise_cons, List.mem_cons, List.not_mem_nil, or_false, forall_eq_or_imp,
      forall_eq, List.Pairwise.nil, and_true, false_implies, implies_true]
    exact ⟨⟨e12, ne_by_lastN l1 lastN3_refSeqId (by decide),
        ne_by_lastN l1 lastN3_refseqSelectUrl (by decide),
        ne_by_lastN l1 l7 (by decide), ne_by_lastN l1 l8 (by decide)⟩,
      ⟨ne_by_lastN l2 lastN3_refSeqId (by decide),
        ne_by_lastN l2 lastN3_refseqSelectUrl (by decide),
        ne_by_lastN l2 l7 (by decide), ne_by_lastN l2 l8 (by decide)⟩,
      ⟨ne_by_lastN lastN3_refSeqId lastN3_refseqSelectUrl (by decide),
        ne_by_lastN lastN3_refSeqId l7 (by decide),
        ne_by_lastN lastN3_refSeqId l8 (by decide)⟩,
      ⟨ne_by_lastN lastN7_refseqSelectUrl m7 (by decide),
        ne_by_lastN lastN7_refseqSelectUrl m8 (by decide)⟩,
      e78⟩
  · simp only [if_true, List.cons_append, List.nil_append,
      List.pairwise_cons, List.mem_cons, List.not_mem_nil, or_false, forall_eq_or_imp,
      forall_eq, List.Pairwise.nil, and_true, false_implies, implies_true]
    exact ⟨⟨e12, ne_by_lastN l1 l3 (by decide), ne_by_lastN l1 l4 (by decide),
        ne_by_lastN l1 lastN3_refSeqId (by decide),
        ne_by_lastN l1 lastN3_refseqSelectUrl (by decide),
        ne_by_lastN l1 l7 (by decide), ne_by_lastN l1 l8 (by decide)⟩,
      ⟨ne_by_lastN l2 l3 (by decide), ne_by_lastN l2 l4 (by decide),
        ne_by_lastN l2 lastN3_refSeqId (by decide),
        ne_by_lastN l2 lastN3_refseqSelectUrl (by decide),
        ne_by_lastN l2 l7 (by decide), ne_by_lastN l2 l8 (by decide)⟩,
      ⟨ne_by_lastN l3 l4 (by decide), ne_by_lastN l3 lastN3_refSeqId (by decide),
        ne_by_lastN l3 lastN3_refseqSelectUrl (by decide),
        ne_by_lastN l3 l7 (by decide), ne_by_lastN l3 l8 (by decide)⟩,
      ⟨ne_by_lastN l4 lastN3_refSeqId (by decide),
        ne_by_lastN l4 lastN3_refseqSelectUrl (by decide),
        ne_by_lastN l4 l7 (by decide), ne_by_lastN l4 l8 (by decide)⟩,
      ⟨ne_by_lastN lastN3_refSeqId lastN3_refseqSelectUrl (by decide),
        ne_by_lastN lastN3_refSeqId l7 (by decide),
        ne_by_lastN lastN3_refSeqId l8 (by decide)⟩,
      ⟨ne_by_lastN lastN7_refseqSelectUrl m7 (by decide),
        ne_by_lastN lastN7_refseqSelectUrl m8 (by decide)⟩,
      e78⟩

theorem getAttr_id_vcfTrack (B : Str) :
    (vcfTrack B).getAttr (("id").data) = some (vcfPath B) := rfl

theorem getAttr_id_vcfIhtTrack (B : Str) :
    (vcfIhtTrack B).getAttr (("id").data) = some (vcfIhtPath B) := rfl

theorem getAttr_id_refSequenceTrackMulti :
    refSequenceTrackMulti.getAttr (("id").data) = some (("Reference sequence").data) := rfl

theorem filter_track_sampleResources (B M G s : Str) :
    (sampleResources B M G s).filter (fun e => e.tag == ("Track").data) = [] := rfl

theorem filter_track_sampleData (B M G s : Str) :
    ([multiMethTrack B s M G (("pat").data), multiDataRange,
      multiMethTrack B s M G (("mat").data), multiDataRange]).filter
        (fun e => e.tag == ("Track").data) =
      [multiMethTrack B s M G (("pat").data), multiMethTrack B s M G (("mat").data)] := rfl

theorem filter_track_sampleFeat (B s : Str) :
    (sampleFeatTracks B s).filter (fun e => e.tag == ("Track").data) =
      sampleFeatTracks B s := rfl

theorem filterMap_flatMap_elems (f : XElem → Option Str) (g : Str → List XElem)
    (l : List Str) :
    (l.flatMap g).filterMap f = l.flatMap (fun s => (g s).filterMap f) := by
  induction l with
  | nil => simp
  | cons x xs ih => simp [List.flatMap_cons, List.filterMap_append, ih]

theorem filterMap_id_sampleData2 (B M G s : Str) :
    ([multiMethTrack B s M G (("pat").data),
      multiMethTrack B s M G (("mat").data)]).filterMap
        (fun e => e.getAttr (("id").data)) =
      [multiBwPath B s M G (("pat").data), multiBwPath B s M G (("mat").data)] := rfl

theorem filterMap_id_sampleFeat (B s : Str) :
    (sampleFeatTracks B s).filterMap (fun e => e.getAttr (("id").data)) =
      [multiBedPath B s (("paternal").data), multiBedPath B s (("maternal").data)] := rfl

/-- The Track ids of the multi-sample document, in document order. -/
theorem trackIds_multi (sample_ids : List Str)
    (locus genome base_url methylation_type : Str) :
    trackIds (create_multi_sample_igv_session_tree sample_ids locus genome base_url
        methylation_type) =
      (sample_ids.flatMap fun s =>
        [multiBwPath base_url s methylation_type genome (("pat").data),
         multiBwPath base_url s methylation_type genome (("mat").data)]) ++
      ([vcfPath base_url, vcfIhtPath base_url] ++
        ((sample_ids.flatMap fun s =>
          [multiBedPath base_url s (("paternal").data),
           multiBedPath base_url s (("maternal").data)]) ++
          [("Reference sequence").data])) := by
  rw [multi_tree_eq]
  simp only [trackIds, allElems_mk, allElemsList_cons, allElemsList_nil,
    allElemsList_append, allElemsList_flatMap, allElemsList_sampleResources,
    allElemsList_sampleDataTracks, allElemsList_sampleFeatTracks,
    allElems_vcfResource, allElems_vcfIhtResource, allElems_vcfTrack,
    allElems_vcfIhtTrack, allElems_refSequenceTrackMulti,
    List.filter_append, filter_flatMap_elems, filter_track_sampleResources,
    filter_track_sampleData, filter_track_sampleFeat,
    List.append_nil, List.nil_append]
  simp [tag_mk, tag_vcfResource, tag_vcfIhtResource, tag_vcfTrack, tag_vcfIhtTrack,
    tag_refSequenceTrackMulti, filter_track_sampleResources, filter_track_sampleData,
    filter_track_sampleFeat, flatMap_const_nil, List.filterMap_append,
    filterMap_flatMap_elems, filterMap_id_sampleData2, filterMap_id_sampleFeat,
    getAttr_id_vcfTrack, getAttr_id_vcfIhtTrack, getAttr_id_refSequenceTrackMulti]
  simp only [filter_flatMap_elems, filter_track_sampleFeat, flatMap_const_nil,
    List.nil_append, filterMap_flatMap_elems, filterMap_id_sampleFeat,
    List.filterMap_cons, List.filterMap_append, List.filterMap_nil]
  have hdata : ∀ l : List Str, (l.flatMap fun s =>
      List.filterMap (fun e => e.getAttr (("id").data))
        (List.filter (fun e => e.tag == ("Track").data)
          [multiMethTrack base_url s methylation_type genome (("pat").data), multiDataRange,
           multiMethTrack base_url s methylation_type genome (("mat").data),
           multiDataRange])) =
      l.flatMap fun s =>
        [multiBwPath base_url s methylation_type genome (("pat").data),
         multiBwPath base_url s methylation_type genome (("mat").data)] :=
    fun _ => rfl
  have hres : (sample_ids.flatMap fun s =>
      List.filterMap (fun e => e.getAttr (("id").data))
        (List.filter (fun e => e.tag == ("Track").data)
          (sampleResources base_url methylation_type genome s))) =
      sample_ids.flatMap fun _ => ([] : List Str) := rfl
  rw [hdata, hres, flatMap_const_nil, List.nil_append]
  rw [getAttr_id_vcfTrack, getAttr_id_vcfIhtTrack, getAttr_id_refSequenceTrackMulti]

theorem multiBw_pat_ne_mat (B M G s t : Str) :
    multiBwPath B s M G (("pat").data) ≠ multiBwPath B t M G (("mat").data) := by
  intro h
  simp only [multiBwPath] at h
  have h1 := List.append_cancel_right h
  have h2 := List.append_cancel_right h1
  have h3 := List.append_cancel_right h2
  have h4 := List.append_cancel_right h3
  have h5 := List.append_cancel_right h4
  exact append_ne_of_suffix_ne (by decide) (by decide) _ _ h5

theorem multiBw_inj (B M G p : Str) {s t : Str} (hst : s ≠ t) :
    multiBwPath B s M G p ≠ multiBwPath B t M G p := by
  intro h
  simp only [multiBwPath] at h
  have h1 := List.append_cancel_right h
  have h2 := List.append_cancel_right h1
  have h3 := List.append_cancel_right h2
  have h4 := List.append_cancel_right h3
  have h5 := List.append_cancel_right h4
  have h6 := List.append_cancel_right h5
  have h7 := List.append_cancel_right h6
  exact hst (List.append_cancel_left h7)

theorem multiBed_pat_ne_mat (B s t : Str) :
    multiBedPath B s (("paternal").data) ≠ multiBedPath B t (("maternal").data) := by
  intro h
  simp only [multiBedPath] at h
  have h1 := List.append_cancel_right h
  exact append_ne_of_suffix_ne (by decide) (by decide) _ _ h1

theorem multiBed_inj (B p : Str) {s t : Str} (hst : s ≠ t) :
    multiBedPath B s p ≠ multiBedPath B t p := by
  intro h
  simp only [multiBedPath] at h
  have h1 := List.append_cancel_right h
  have h2 := List.append_cancel_right h1
  have h3 := List.append_cancel_right h2
  exact hst (List.append_cancel_left h3)

theorem vcf_ne_vcfIht (B : Str) : vcfPath B ≠ vcfIhtPath B := by
  intro h
  simp only [vcfPath, vcfIhtPath] at h
  exact absurd (List.append_cancel_left h) (by decide)

theorem lastN3_multiBwPath (B s M G p : Str) :
    lastN 3 (multiBwPath B s M G p) = ("wb.").data := by
  simp only [multiBwPath]
  rw [lastN_append]
  · decide
  · decide

theorem lastN3_multiBedPath (B s p : Str) :
    lastN 3 (multiBedPath B s p) = ("zg.").data := by
  simp only [multiBedPath]
  rw [lastN_append]
  · decide
  · decide

theorem lastN7_multiBedPath (B s p : Str) :
    lastN 7 (multiBedPath B s p) = ("zg.deb.").data := by
  simp only [multiBedPath]
  rw [lastN_append]
  · decide
  · decide

theorem lastN3_vcfPath (B : Str) : lastN 3 (vcfPath B) = ("zg.").data := by
  simp only [vcfPath]
  rw [lastN_append]
  · decide
  · decide

theorem lastN3_vcfIhtPath (B : Str) : lastN 3 (vcfIhtPath B) = ("zg.").data := by
  simp only [vcfIhtPath]
  rw [lastN_append]
  · decide
  · decide

theorem lastN7_vcfPath (B : Str) : lastN 7 (vcfPath B) = ("zg.fcv.").data := by
  simp only [vcfPath]
  rw [lastN_append]
  · decide
  · decide

theorem lastN7_vcfIhtPath (B : Str) : lastN 7 (vcfIhtPath B) = ("zg.fcv.").data := by
  simp only [vcfIhtPath]
  rw [lastN_append]
  · decide
  · decide

theorem pairwise_flatMap_pair (f g : Str → Str) (l : List Str)
    (hfg : ∀ s t, f s ≠ g t)
    (hff : ∀ s t, s ≠ t → f s ≠ f t)
    (hgg : ∀ s t, s ≠ t → g s ≠ g t)
    (hdist : l.Pairwise (fun a b => a ≠ b)) :
    (l.flatMap fun s => [f s, g s]).Pairwise (fun a b => (a : Str) ≠ b) := by
  induction l with
  | nil => simp
  | cons x xs ih =>
    rw [List.flatMap_cons, List.pairwise_append]
    rcases List.pairwise_cons.mp hdist with ⟨hx, hxs⟩
    refine ⟨?_, ih hxs, ?_⟩
    · simp only [List.pairwise_cons, List.mem_cons, List.not_mem_nil, or_false,
        forall_eq, List.Pairwise.nil, and_true]
      exact ⟨hfg x x, fun _ h => h.elim⟩
    · intro a ha b hb
      simp only [List.mem_cons, List.not_mem_nil, or_false] at ha
      rw [List.mem_flatMap] at hb
      obtain ⟨t, htmem, hbt⟩ := hb
      simp only [List.mem_cons, List.not_mem_nil, or_false] at hbt
      have hxt : x ≠ t := hx t htmem
      rcases ha with rfl | rfl <;> rcases hbt with rfl | rfl
      · exact hff x t hxt
      · exact hfg x t
      · exact fun he => (hfg t x) he.symm
      · exact hgg x t hxt

theorem trackIds_multi_pairwise (sample_ids : List Str)
    (locus genome base_url methylation_type : Str)
    (hdist : sample_ids.Pairwise (fun a b => a ≠ b)) :
    (trackIds (create_multi_sample_igv_session_tree sample_ids locus genome base_url
        methylation_type)).Pairwise (fun a b => a ≠ b) := by
  rw [trackIds_multi]
  rw [List.pairwise_append]
  refine ⟨?_, ?_, ?_⟩
  · exact pairwise_flatMap_pair _ _ sample_ids
      (fun s t => multiBw_pat_ne_mat base_url methylation_type genome s t)
      (fun s t h => multiBw_inj base_url methylation_type genome _ h)
      (fun s t h => multiBw_inj base_url methylation_type genome _ h) hdist
  · rw [show ([vcfPath base_url, vcfIhtPath base_url] :
        List Str) = [vcfPath base_url] ++ [vcfIhtPath base_url] from rfl,
      List.append_assoc, List.pairwise_append]
    refine ⟨List.pairwise_singleton _ _, ?_, ?_⟩
    · rw [List.pairwise_append]
      refine ⟨List.pairwise_singleton _ _, ?_, ?_⟩
      · rw [List.pairwise_append]
        refine ⟨?_, List.pairwise_singleton _ _, ?_⟩
        · exact pairwise_flatMap_pair _ _ sample_ids
            (fun s t => multiBed_pat_ne_mat base_url s t)
            (fun s t h => multiBed_inj base_url _ h)
            (fun s t h => multiBed_inj base_url _ h) hdist
        · intro a ha b hb
          simp only [List.mem_cons, List.not_mem_nil, or_false] at hb
          subst hb
          rw [List.mem_flatMap] at ha
          obtain ⟨t, _, hat⟩ := ha
          simp only [List.mem_cons, List.not_mem_nil, or_false] at hat
          rcases hat with rfl | rfl
          · exact ne_by_lastN (lastN3_multiBedPath base_url t (("paternal").data))
              lastN3_refSeqId (by decide)
          · exact ne_by_lastN (lastN3_multiBedPath base_url t (("maternal").data))
              lastN3_refSeqId (by decide)
      · intro a ha b hb
        simp only [List.mem_cons, List.not_mem_nil, or_false] at ha
        subst ha
        rw [List.mem_append] at hb
        rcases hb with hb | hb
        · rw [List.mem_flatMap] at hb
          obtain ⟨t, _, hbt⟩ := hb
          simp only [List.mem_cons, List.not_mem_nil, or_false] at hbt
          rcases hbt with rfl | rfl
          · exact ne_by_lastN (lastN7_vcfIhtPath base_url)
              (lastN7_multiBedPath base_url t (("paternal").data)) (by decide)
          · exact ne_by_lastN (lastN7_vcfIhtPath base_url)
              (lastN7_multiBedPath base_url t (("maternal").data)) (by decide)
        · simp only [List.mem_cons, List.not_mem_nil, or_false] at hb
          subst hb
          exact ne_by_lastN (lastN3_vcfIhtPath base_url) lastN3_refSeqId (by decide)
    · intro a ha b hb
      simp only [List.mem_cons, List.not_mem_nil, or_false] at ha
      subst ha
      rw [List.mem_append] at hb
      rcases hb with hb | hb
      · simp only [List.mem_cons, List.not_mem_nil, or_false] at hb
        subst hb
        exact vcf_ne_vcfIht base_url
      · rw [List.mem_append] at hb
        rcases hb with hb | hb
        · rw [List.mem_flatMap] at hb
          obtain ⟨t, _, hbt⟩ := hb
          simp only [List.mem_cons, List.not_mem_nil, or_false] at hbt
          rcases hbt with rfl | rfl
          · exact ne_by_lastN (lastN7_vcfPath base_url)
              (lastN7_multiBedPath base_url t (("paternal").data)) (by decide)
          · exact ne_by_lastN (lastN7_vcfPath base_url)
              (lastN7_multiBedPath base_url t (("maternal").data)) (by decide)
        · simp only [List.mem_cons, List.not_mem_nil, or_false] at hb
          subst hb
          exact ne_by_lastN (lastN3_vcfPath base_url) lastN3_refSeqId (by decide)
  · intro a ha b hb
    rw [List.mem_flatMap] at ha
    obtain ⟨s, _, has⟩ := ha
    simp only [List.mem_cons, List.not_mem_nil, or_false] at has
    have hb3 : lastN 3 b ≠ ("wb.").data := by
      simp only [List.mem_cons, List.mem_append, List.mem_flatMap, List.not_mem_nil,
        or_false] at hb
      rcases hb with (rfl | rfl) | ⟨t, _, rfl | rfl⟩ | rfl
      · rw [lastN3_vcfPath]
        decide
      · rw [lastN3_vcfIhtPath]
        decide
      · rw [lastN3_multiBedPath]
        decide
      · rw [lastN3_multiBedPath]
        decide
      · rw [lastN3_refSeqId]
        decide
    rcases has with rfl | rfl
    · exact ne_of_lastN_ne (by
        rw [lastN3_multiBwPath]
        exact fun he => hb3 he.symm)
    · exact ne_of_lastN_ne (by
        rw [lastN3_multiBwPath]
        exact fun he => hb3 he.symm)

/-- C8: for every document produced by either builder from non-degenerate
input (non-empty individual id; pairwise-distinct non-empty sample ids), the
`id` attributes of all Track elements are pairwise distinct. -/
theorem c8_track_ids_unique :
    (∀ individual_id locus genome base_url (include_bam_tracks : Bool) methylation_type,
      individual_id ≠ [] →
      (trackIds (create_igv_session_tree individual_id locus genome base_url
          include_bam_tracks methylation_type)).Pairwise (fun a b => a ≠ b)) ∧
    (∀ sample_ids locus genome base_url methylation_type,
      (∀ s ∈ sample_ids, s ≠ []) →
      sample_ids.Pairwise (fun a b => (a : Str) ≠ b) →
      (trackIds (create_multi_sample_igv_session_tree sample_ids locus genome base_url
          methylation_type)).Pairwise (fun a b => a ≠ b)) := by
  constructor
  · intro individual_id locus genome base_url include_bam_tracks methylation_type _
    exact trackIds_single_pairwise individual_id locus genome base_url
      include_bam_tracks methylation_type
  · intro sample_ids locus genome base_url methylation_type _ hdist
    exact trackIds_multi_pairwise sample_ids locus genome base_url methylation_type hdist

theorem c8_track_ids_unique_witness :
    (trackIds (create_igv_session_tree (("i").data) (("l").data) (("g").data)
        (("u").data) true (("c").data))).Pairwise (fun a b => a ≠ b) ∧
    (trackIds (create_multi_sample_igv_session_tree [("s1").data, ("s2").data]
        (("l").data) (("g").data) (("u").data) (("c").data))).Pairwise
        (fun a b => a ≠ b) :=
  ⟨c8_track_ids_unique.1 (("i").data) (("l").data) (("g").data) (("u").data) true
      (("c").data) (by decide),
   c8_track_ids_unique.2 [("s1").data, ("s2").data] (("l").data) (("g").data)
      (("u").data) (("c").data) (by decide)
      (List.pairwise_cons.mpr ⟨by
        intro t ht
        simp only [List.mem_cons, List.not_mem_nil, or_false] at ht
        subst ht
        decide, List.pairwise_cons.mpr ⟨fun t ht => absurd ht (List.not_mem_nil t),
          List.Pairwise.nil⟩⟩)⟩
